import Mathlib

/-!
# wlcursorfix: a shallow embedding of `wlcursorfix.c`

The shim intercepts libwayland entry points and rewrites the legacy
"set a cursor surface, attach a bitmap to it, commit" sequence into one
`wp_cursor_shape_device_v1.set_shape` request.

Conventions of the embedding:

* a C pointer is a natural number, `0` being `NULL`;
* a `GHashTable` is an association list; a `gpointer` value is a natural number;
* the thread-local `deferred_set_cursor_data` is passed explicitly;
* every call that reaches the real library (`next(...)`, a `wp_cursor_shape_*` request) is
  appended to `World.wire`, in program order;
* a `wp_cursor_shape_*` request stub marshals through `wl_proxy_marshal_flags` of
  libwayland, which calls `wl_proxy_marshal_array_flags`: a stub called by the shim from
  inside the hook enters the hook a second time, on the same thread-local data;
* a dereference of `NULL` inside GLib is a failure: the function returns `none`.
-/

namespace Wlcursorfix

/-! ## Protocol constants (generated protocol headers)

The opcode and shape constants come from headers generated from the Wayland protocol
descriptions; those headers are not part of the repository. -/

/-- Modelled from the spec: opcode of `wl_surface.attach`, the "attach-buffer" request
(`wayland-client-protocol.h`, not in the repository; the value is the protocol's). -/
def WL_SURFACE_ATTACH : Nat := 1
/-- Modelled from the spec: opcode of `wl_surface.damage`, the "damage" request (header not
in the repository; the value is the protocol's). -/
def WL_SURFACE_DAMAGE : Nat := 2
/-- Modelled from the spec: opcode of `wl_surface.commit`, the "commit" request (header not
in the repository; the value is the protocol's). -/
def WL_SURFACE_COMMIT : Nat := 6
/-- Modelled from the spec: opcode of `wl_surface.set_buffer_scale`, the "scale" request
(header not in the repository; the value is the protocol's). -/
def WL_SURFACE_SET_BUFFER_SCALE : Nat := 8
/-- Modelled from the spec: opcode of `wl_pointer.set_cursor`, the legacy cursor-set request
of a pointer (header not in the repository; the value is the protocol's). -/
def WL_POINTER_SET_CURSOR : Nat := 0
/-- Modelled from the spec: opcode of `zwp_tablet_tool_v2.set_cursor`, the legacy cursor-set
request of a tablet tool (`tablet-unstable-v2-client-protocol.h`, not in the repository;
the value is the protocol's). -/
def ZWP_TABLET_TOOL_V2_SET_CURSOR : Nat := 0

/-- Modelled from the spec: the `WP_CURSOR_SHAPE_DEVICE_V1_SHAPE_*` enumerators live in the
generated `cursor-shape-v1-client-protocol.h`, which is not part of the repository. The spec
reserves 0 for "no mapping"; the values are those of the protocol's `shape` enum. -/
inductive Shape
  | DEFAULT | CONTEXT_MENU | HELP | POINTER | PROGRESS | WAIT | CELL | CROSSHAIR | TEXT
  | VERTICAL_TEXT | ALIAS | COPY | MOVE | NO_DROP | NOT_ALLOWED | GRAB | GRABBING
  | E_RESIZE | N_RESIZE | NE_RESIZE | NW_RESIZE | S_RESIZE | SE_RESIZE | SW_RESIZE | W_RESIZE
  | EW_RESIZE | NS_RESIZE | NESW_RESIZE | NWSE_RESIZE | COL_RESIZE | ROW_RESIZE | ALL_SCROLL
  | ZOOM_IN | ZOOM_OUT
  deriving DecidableEq, Repr

/-- Modelled from the spec: numeric value of a `WP_CURSOR_SHAPE_DEVICE_V1_SHAPE_*` enumerator
(the header is not in the repository); the enum starts at 1, 0 is never a shape. -/
def Shape.val : Shape → Nat
  | .DEFAULT => 1 | .CONTEXT_MENU => 2 | .HELP => 3 | .POINTER => 4 | .PROGRESS => 5
  | .WAIT => 6 | .CELL => 7 | .CROSSHAIR => 8 | .TEXT => 9 | .VERTICAL_TEXT => 10
  | .ALIAS => 11 | .COPY => 12 | .MOVE => 13 | .NO_DROP => 14 | .NOT_ALLOWED => 15
  | .GRAB => 16 | .GRABBING => 17 | .E_RESIZE => 18 | .N_RESIZE => 19 | .NE_RESIZE => 20
  | .NW_RESIZE => 21 | .S_RESIZE => 22 | .SE_RESIZE => 23 | .SW_RESIZE => 24
  | .W_RESIZE => 25 | .EW_RESIZE => 26 | .NS_RESIZE => 27 | .NESW_RESIZE => 28
  | .NWSE_RESIZE => 29 | .COL_RESIZE => 30 | .ROW_RESIZE => 31 | .ALL_SCROLL => 32
  | .ZOOM_IN => 33 | .ZOOM_OUT => 34

/-! ## GLib hash tables -/

/-- A `GHashTable` with keys in `κ` and `gpointer` values. -/
abbrev GHashTable (κ : Type) := List (κ × Nat)

/-- The call `g_hash_table_lookup_extended`: `some value` when the key is present. -/
def g_hash_table_lookup_extended {κ : Type} [DecidableEq κ] :
    GHashTable κ → κ → Option Nat
  | [], _ => none
  | (k, v) :: t, key => if k = key then some v else g_hash_table_lookup_extended t key

/-- The call `g_hash_table_lookup`: the value, or `NULL` when the key is absent. -/
def g_hash_table_lookup {κ : Type} [DecidableEq κ] (t : GHashTable κ) (key : κ) : Nat :=
  (g_hash_table_lookup_extended t key).getD 0

/-- The call `g_hash_table_insert`: a key that is already present has its value replaced. -/
def g_hash_table_insert {κ : Type} [DecidableEq κ] (t : GHashTable κ) (key : κ) (value : Nat) :
    GHashTable κ :=
  (key, value) :: t.filter (fun e => decide (e.1 ≠ key))

/-! ## Internal structures -/

/-- The fields of `struct wl_proxy` the shim reads: the interface name (what
`wl_proxy_get_class` returns) and the display. -/
structure wl_proxy where
  interface_name : String
  display : Nat
  deriving DecidableEq, Repr

/-- The memory holding the proxies of the client: address to `struct wl_proxy`. -/
abbrev Heap := Nat → wl_proxy

/-- The struct `gtk_cursor_image`: only the `buffer` field is read. -/
structure gtk_cursor_image where
  buffer : Nat
  deriving DecidableEq, Repr

/-- The struct `gtk_wl_cursor`: `images` has `image_count` entries. -/
structure gtk_wl_cursor where
  images : List gtk_cursor_image
  name : String
  deriving DecidableEq, Repr

/-- The struct `gtk_wl_cursor_theme`: `cursors` has `cursor_count` entries. -/
structure gtk_wl_cursor_theme where
  cursors : List gtk_wl_cursor
  deriving DecidableEq, Repr

/-- An image of a `struct wl_cursor`; `buffer` is what `wl_cursor_image_get_buffer` returns. -/
structure wl_cursor_image where
  buffer : Nat
  deriving DecidableEq, Repr

/-- The struct `wl_cursor` of libwayland-cursor: `images` has `image_count` entries. -/
structure wl_cursor where
  images : List wl_cursor_image
  deriving DecidableEq, Repr

/-- The table `cursor_shape_list` (lines 86-127), entry for entry. -/
def cursor_shape_list : List (String × Nat) :=
  [ ("default", Shape.DEFAULT.val),
    ("left_ptr", Shape.DEFAULT.val),
    ("help", Shape.HELP.val),
    ("context-menu", Shape.CONTEXT_MENU.val),
    ("pointer", Shape.POINTER.val),
    ("progress", Shape.PROGRESS.val),
    ("wait", Shape.WAIT.val),
    ("cell", Shape.CELL.val),
    ("crosshair", Shape.CROSSHAIR.val),
    ("text", Shape.TEXT.val),
    ("xterm", Shape.TEXT.val),
    ("vertical-text", Shape.VERTICAL_TEXT.val),
    ("alias", Shape.ALIAS.val),
    ("copy", Shape.COPY.val),
    ("move", Shape.MOVE.val),
    ("no-drop", Shape.NO_DROP.val),
    ("dnd-ask", Shape.COPY.val),
    ("not-allowed", Shape.NOT_ALLOWED.val),
    ("grab", Shape.GRAB.val),
    ("grabbing", Shape.GRABBING.val),
    ("all-scroll", Shape.ALL_SCROLL.val),
    ("col-resize", Shape.COL_RESIZE.val),
    ("row-resize", Shape.ROW_RESIZE.val),
    ("n-resize", Shape.N_RESIZE.val),
    ("e-resize", Shape.E_RESIZE.val),
    ("s-resize", Shape.S_RESIZE.val),
    ("w-resize", Shape.W_RESIZE.val),
    ("ne-resize", Shape.NE_RESIZE.val),
    ("nw-resize", Shape.NW_RESIZE.val),
    ("se-resize", Shape.SE_RESIZE.val),
    ("sw-resize", Shape.SW_RESIZE.val),
    ("ew-resize", Shape.EW_RESIZE.val),
    ("ns-resize", Shape.EW_RESIZE.val),
    ("nesw-resize", Shape.NESW_RESIZE.val),
    ("nwse-resize", Shape.NWSE_RESIZE.val),
    ("zoom-in", Shape.ZOOM_IN.val),
    ("zoom-out", Shape.ZOOM_OUT.val) ]

/-- The global `cursor_shape_map` as `init` builds it (lines 151-156): one
`g_hash_table_insert` per entry of `cursor_shape_list`, in order. It is never written again. -/
def cursor_shape_map : GHashTable String :=
  cursor_shape_list.foldl (fun m e => g_hash_table_insert m e.1 e.2) []

/-! ## The world outside the calling thread -/

/-- The union `wl_argument`, restricted to the members the shim touches: `.u` (uint32),
`.o` (object pointer) and `.i` (int32). -/
inductive wl_argument
  | u (n : Nat)
  | o (p : Nat)
  | i (v : Int)
  deriving DecidableEq, Repr

/-- Read the `.u` member. -/
def wl_argument.get_u : wl_argument → Nat
  | .u n => n
  | .o p => p
  | .i v => v.toNat

/-- Read the `.o` member. -/
def wl_argument.get_o : wl_argument → Nat
  | .u n => n
  | .o p => p
  | .i v => v.toNat

/-- Read the `.i` member. -/
def wl_argument.get_i : wl_argument → Int
  | .u n => n
  | .o p => p
  | .i v => v

/-- A call that leaves the shim, as the real libwayland sees it. -/
inductive WireEvent
  /-- The call `next(proxy, opcode, interface, version, flags, args)` of the real
  `wl_proxy_marshal_array_flags`. -/
  | marshal (proxy opcode interface version flags : Nat) (args : List wl_argument)
  /-- The request `wp_cursor_shape_manager_v1_get_pointer(manager, pointer)`. -/
  | get_pointer (manager pointer : Nat)
  /-- The request `wp_cursor_shape_manager_v1_get_tablet_tool_v2(manager, tool)`. -/
  | get_tablet_tool_v2 (manager tool : Nat)
  /-- The request `wp_cursor_shape_device_v1_set_shape(device, serial, shape)`. -/
  | set_shape (device serial shape : Nat)
  /-- The request `wp_cursor_shape_device_v1_destroy(device)`. -/
  | destroy (device : Nat)
  deriving DecidableEq, Repr

/-- The process-wide state: the three mutable hash tables, the captured GTK display, the
theme the private GTK accessor returns, the log of outgoing calls, and the proxies the real
library hands back for the coming object-creating requests (`NULL` once exhausted). -/
structure World where
  buffer_shape_map : GHashTable Nat
  display_cursor_shape_manager_map : GHashTable Nat
  object_cursor_shape_device_map : GHashTable Nat
  gdk_wayland_display : Nat
  gtk_theme : gtk_wl_cursor_theme
  wire : List WireEvent
  fresh : List Nat
  deriving DecidableEq, Repr

/-- The state `init` leaves (lines 145-164): empty tables, no captured display. -/
def init (theme : gtk_wl_cursor_theme) (fresh : List Nat) : World :=
  { buffer_shape_map := [], display_cursor_shape_manager_map := [],
    object_cursor_shape_device_map := [], gdk_wayland_display := 0,
    gtk_theme := theme, wire := [], fresh := fresh }

/-- Append one outgoing call to the log. -/
def World.emit (w : World) (e : WireEvent) : World :=
  { w with wire := w.wire ++ [e] }

/-! ## Cache operations -/

/-- The function `register_wl_cursor_buffers` (lines 167-183). -/
def register_wl_cursor_buffers (w : World) (name : String) (cursor : wl_cursor) : World :=
  match g_hash_table_lookup_extended cursor_shape_map name with
  | none => w
  | some value =>
    { w with buffer_shape_map :=
        (cursor.images.foldl (fun m image => g_hash_table_insert m image.buffer value)
          w.buffer_shape_map) }

/-- The function `gtk_cursor_theme_buffer_name` (lines 454-466): `none` is `NULL`. -/
def gtk_cursor_theme_buffer_name (theme : gtk_wl_cursor_theme) (buffer : Nat) :
    Option String :=
  (theme.cursors.find? (fun cursor => cursor.images.any (fun image => image.buffer = buffer))).map
    (fun cursor => cursor.name)

/-- The function `gtk_cursor_theme_buffer_shape` (lines 468-489). With a `NULL` name
`g_str_hash` dereferences it inside `g_hash_table_lookup_extended`: the call fails. A failed
lookup leaves `value` `NULL`, and that is what is inserted. -/
def gtk_cursor_theme_buffer_shape (w : World) (theme : gtk_wl_cursor_theme) (buffer : Nat) :
    Option (Nat × World) :=
  match gtk_cursor_theme_buffer_name theme buffer with
  | none => none
  | some name =>
    match g_hash_table_lookup_extended cursor_shape_map name with
    | none =>
      some (0, { w with buffer_shape_map := g_hash_table_insert w.buffer_shape_map buffer 0 })
    | some value =>
      some (value,
        { w with buffer_shape_map := g_hash_table_insert w.buffer_shape_map buffer value })

/-- The function `gdk_wayland_display_cursor_buffer_shape` (lines 491-497); the theme is the
one `_gdk_wayland_display_get_cursor_theme` returns. -/
def gdk_wayland_display_cursor_buffer_shape (w : World) (buffer : Nat) : Option (Nat × World) :=
  gtk_cursor_theme_buffer_shape w w.gtk_theme buffer

/-- The function `lookup_buffer_shape` (lines 186-197). -/
def lookup_buffer_shape (w : World) (buffer : Nat) : Option (Nat × World) :=
  let shape := g_hash_table_lookup w.buffer_shape_map buffer
  if shape = 0 ∧ w.gdk_wayland_display ≠ 0 then
    gdk_wayland_display_cursor_buffer_shape w buffer
  else
    some (shape, w)

/-- The function `register_display_shape_manager` (lines 200-212); it returns `void`. -/
def register_display_shape_manager (w : World) (display cursor_shape_manager : Nat) :
    Unit × World :=
  if g_hash_table_lookup w.display_cursor_shape_manager_map display ≠ 0 then
    ((), w)
  else
    ((), { w with display_cursor_shape_manager_map :=
            (g_hash_table_insert w.display_cursor_shape_manager_map display
              cursor_shape_manager) })

/-- The creation request of lines 242-248: the pointer or the tablet-tool variant; the real
library answers with the next proxy of `fresh`, or `NULL`. -/
def create_cursor_shape_device (w : World) (cursor_shape_manager object : Nat)
    (tablet_tool : Bool) : Nat × World :=
  let ev := if tablet_tool then WireEvent.get_tablet_tool_v2 cursor_shape_manager object
            else WireEvent.get_pointer cursor_shape_manager object
  (w.fresh.headD 0, { w with wire := w.wire ++ [ev], fresh := w.fresh.tail })

/-- The function `get_cursor_shape_device` (lines 214-272), run by one thread without
interference and with no set_cursor pending in that thread, so that the hook, entered again
by the request stubs, only forwards them. -/
def get_cursor_shape_device (h : Heap) (w : World) (object : Nat) (tablet_tool : Bool) :
    Nat × World :=
  let cursor_shape_device := g_hash_table_lookup w.object_cursor_shape_device_map object
  if cursor_shape_device ≠ 0 then
    (cursor_shape_device, w)
  else
    let cursor_shape_manager :=
      g_hash_table_lookup w.display_cursor_shape_manager_map (h object).display
    if cursor_shape_manager = 0 then
      (0, w)
    else
      let (cursor_shape_device, w1) :=
        create_cursor_shape_device w cursor_shape_manager object tablet_tool
      if cursor_shape_device = 0 then
        (0, w1)
      else
        let other_cursor_shape_device :=
          g_hash_table_lookup w1.object_cursor_shape_device_map object
        if other_cursor_shape_device ≠ 0 then
          (other_cursor_shape_device, w1.emit (.destroy cursor_shape_device))
        else
          (cursor_shape_device,
            { w1 with object_cursor_shape_device_map :=
                (g_hash_table_insert w1.object_cursor_shape_device_map object
                  cursor_shape_device) })

/-- The hook `wl_cursor_theme_get_cursor` (lines 340-351); `next` is the real implementation
(`none` is a `NULL` cursor). -/
def wl_cursor_theme_get_cursor (next : Nat → String → Option wl_cursor) (w : World)
    (theme : Nat) (name : String) : Option wl_cursor × World :=
  match next theme name with
  | none => (none, w)
  | some cursor => (some cursor, register_wl_cursor_buffers w name cursor)

/-! ## The deferred translation state machine -/

/-- The thread-local `deferred_set_cursor_data` (lines 365-372). -/
structure deferred_set_cursor_data where
  object : Nat
  version : Nat
  enter_serial : Nat
  pointer_surface : Nat
  x : Int
  y : Int
  tablet_tool : Bool
  deriving DecidableEq, Repr

/-- The all-zero value: the static initialiser and the result of the `memset` calls. -/
def deferred_zero : deferred_set_cursor_data :=
  { object := 0, version := 0, enter_serial := 0, pointer_surface := 0, x := 0, y := 0,
    tablet_tool := false }

/-- One intercepted call: the arguments of `wl_proxy_marshal_array_flags`. -/
structure Request where
  proxy : Nat
  opcode : Nat
  interface : Nat
  version : Nat
  flags : Nat
  args : List wl_argument
  deriving DecidableEq, Repr

/-- What the hook returns: `NULL`, or whatever the forwarding call to `next` returned. -/
inductive Ret
  | NULL
  | next_result
  deriving DecidableEq, Repr

/-- The element `args[k]` of the argument array. -/
def Request.arg (r : Request) (k : Nat) : wl_argument :=
  r.args.getD k (.u 0)

/-- The forwarding call `next(proxy, opcode, interface, version, flags, args)` of line 442. -/
def Request.forward (r : Request) : WireEvent :=
  .marshal r.proxy r.opcode r.interface r.version r.flags r.args

/-- The replay of lines 410-418: `next(object, WL_POINTER_SET_CURSOR, NULL, version, 0, args)`
with the four captured arguments. -/
def replay_event (d : deferred_set_cursor_data) : WireEvent :=
  .marshal d.object WL_POINTER_SET_CURSOR 0 d.version 0
    [.u d.enter_serial, .o d.pointer_surface, .i d.x, .i d.y]

/-- The capture of lines 423-429 and 433-439. -/
def capture (r : Request) (tablet_tool : Bool) : deferred_set_cursor_data :=
  { object := r.proxy, version := r.version, enter_serial := (r.arg 0).get_u,
    pointer_surface := (r.arg 1).get_o, x := (r.arg 2).get_i, y := (r.arg 3).get_i,
    tablet_tool := tablet_tool }

/-- Lines 408-442 of `wl_proxy_marshal_array_flags`: flush a pending set_cursor, then defer
the call if it is itself a set_cursor, else forward it. -/
def marshal_tail (h : Heap) (w : World) (d : deferred_set_cursor_data) (r : Request) :
    Ret × World × deferred_set_cursor_data :=
  let cls := (h r.proxy).interface_name
  let wd : World × deferred_set_cursor_data :=
    if d.pointer_surface ≠ 0 then (w.emit (replay_event d), deferred_zero) else (w, d)
  if cls = "wl_pointer" ∧ r.opcode = WL_POINTER_SET_CURSOR then
    (.NULL, wd.1, capture r false)
  else if cls = "zwp_tablet_tool_v2" ∧ r.opcode = ZWP_TABLET_TOOL_V2_SET_CURSOR then
    (.NULL, wd.1, capture r true)
  else
    (.next_result, wd.1.emit r.forward, wd.2)

/-- Lines 408-420 on their own: a pending set_cursor is replayed through `next` and the
deferred data is zeroed. -/
def flush (w : World) (d : deferred_set_cursor_data) : World × deferred_set_cursor_data :=
  if d.pointer_surface ≠ 0 then (w.emit (replay_event d), deferred_zero) else (w, d)

/-- Modelled from the spec: a request stub of the cursor-shape protocol called by the shim
itself (lines 243, 246, 263, 396; the generated header is not in the repository). The stub
calls `wl_proxy_marshal_flags`, which calls `wl_proxy_marshal_array_flags`, that is this
hook again, for a proxy of a cursor-shape interface: not a surface, a pointer or a tablet
tool. The nested call therefore runs the flush of lines 408-420 and forwards the request
at line 442. -/
def reentrant_stub (w : World) (d : deferred_set_cursor_data) (ev : WireEvent) :
    World × deferred_set_cursor_data :=
  ((flush w d).1.emit ev, (flush w d).2)

/-- The creation request of lines 242-248 issued from inside the hook: the stub enters the
hook again; the real library answers with the next proxy of `fresh`, or `NULL`. -/
def create_cursor_shape_device_from_hook (w : World) (d : deferred_set_cursor_data)
    (cursor_shape_manager object : Nat) (tablet_tool : Bool) :
    Nat × World × deferred_set_cursor_data :=
  let ev := if tablet_tool then WireEvent.get_tablet_tool_v2 cursor_shape_manager object
            else WireEvent.get_pointer cursor_shape_manager object
  (w.fresh.headD 0, { (reentrant_stub w d ev).1 with fresh := w.fresh.tail },
    (reentrant_stub w d ev).2)

/-- The function `get_cursor_shape_device` (lines 214-272) as the hook calls it at line 391,
on a thread whose deferred data is `d`: the same code as `get_cursor_shape_device`, its
request stubs entering the hook again. -/
def get_cursor_shape_device_from_hook (h : Heap) (w : World) (d : deferred_set_cursor_data)
    (object : Nat) (tablet_tool : Bool) : Nat × World × deferred_set_cursor_data :=
  let cursor_shape_device := g_hash_table_lookup w.object_cursor_shape_device_map object
  if cursor_shape_device ≠ 0 then
    (cursor_shape_device, w, d)
  else
    let cursor_shape_manager :=
      g_hash_table_lookup w.display_cursor_shape_manager_map (h object).display
    if cursor_shape_manager = 0 then
      (0, w, d)
    else
      let c := create_cursor_shape_device_from_hook w d cursor_shape_manager object tablet_tool
      if c.1 = 0 then
        (0, c.2.1, c.2.2)
      else
        let other_cursor_shape_device :=
          g_hash_table_lookup c.2.1.object_cursor_shape_device_map object
        if other_cursor_shape_device ≠ 0 then
          (other_cursor_shape_device, (reentrant_stub c.2.1 c.2.2 (.destroy c.1)).1,
            (reentrant_stub c.2.1 c.2.2 (.destroy c.1)).2)
        else
          (c.1,
            { c.2.1 with object_cursor_shape_device_map :=
                (g_hash_table_insert c.2.1.object_cursor_shape_device_map object c.1) },
            c.2.2)

/-- Modelled from the spec: the shape-setting request stub
`wp_cursor_shape_device_v1_set_shape(device, serial, shape)` of the generated header (not
in the repository). It reads the version of the device proxy, so a `NULL` device is
dereferenced and the call fails; otherwise it marshals the request, entering the hook
again. -/
def wp_cursor_shape_device_v1_set_shape (w : World) (d : deferred_set_cursor_data)
    (cursor_shape_device serial shape : Nat) : Option (World × deferred_set_cursor_data) :=
  if cursor_shape_device = 0 then none
  else some (reentrant_stub w d (.set_shape cursor_shape_device serial shape))

/-- The hook `wl_proxy_marshal_array_flags` (lines 353-443). In the rewrite branch the
arguments of `set_shape` are read at line 396, after `get_cursor_shape_device` has
returned. -/
def wl_proxy_marshal_array_flags (h : Heap) (w : World) (d : deferred_set_cursor_data)
    (r : Request) : Option (Ret × World × deferred_set_cursor_data) :=
  let cls := (h r.proxy).interface_name
  let is_wl_surface_request := cls = "wl_surface"
  let proxy_is_deferred_pointer_surface := r.proxy ≠ 0 ∧ r.proxy = d.pointer_surface
  if is_wl_surface_request ∧ proxy_is_deferred_pointer_surface then
    if r.opcode = WL_SURFACE_ATTACH then
      match lookup_buffer_shape w (r.arg 0).get_o with
      | none => none
      | some (shape, w1) =>
        if shape = 0 then
          some (marshal_tail h w1 d r)
        else
          let g := get_cursor_shape_device_from_hook h w1 d d.object d.tablet_tool
          match wp_cursor_shape_device_v1_set_shape g.2.1 g.2.2 g.1 g.2.2.enter_serial shape with
          | none => none
          | some (w3, d3) => some (.NULL, w3, d3)
    else if r.opcode = WL_SURFACE_SET_BUFFER_SCALE ∨ r.opcode = WL_SURFACE_DAMAGE then
      some (.NULL, w, d)
    else if r.opcode = WL_SURFACE_COMMIT then
      some (.NULL, w, deferred_zero)
    else
      some (marshal_tail h w d r)
  else
    some (marshal_tail h w d r)

/-- A thread issuing a sequence of intercepted calls, one after the other. -/
def run (h : Heap) : World → deferred_set_cursor_data → List Request →
    Option (World × deferred_set_cursor_data)
  | w, d, [] => some (w, d)
  | w, d, r :: rs =>
    match wl_proxy_marshal_array_flags h w d r with
    | none => none
    | some (_, w1, d1) => run h w1 d1 rs

/-- A thread calling `register_display_shape_manager` for one display with each manager of
a list, in order. -/
def register_display_shape_managers (w : World) (display : Nat) (managers : List Nat) : World :=
  managers.foldl (fun w1 m => (register_display_shape_manager w1 display m).2) w

/-- A thread calling `get_cursor_shape_device(object, kind)` once per entry of `kinds`, in
order: the returned devices and the final state. -/
def get_cursor_shape_device_series (h : Heap) (object : Nat) :
    World → List Bool → List Nat × World
  | w, [] => ([], w)
  | w, k :: ks =>
    let r := get_cursor_shape_device h w object k
    let rest := get_cursor_shape_device_series h object r.2 ks
    (r.1 :: rest.1, rest.2)

/-- The legacy cursor-set request as the client stub issues it (`wl_pointer_set_cursor`, or
`zwp_tablet_tool_v2_set_cursor` when `tablet_tool`): no interface, flags 0, and the
arguments serial, surface, hotspot x, hotspot y. -/
def set_cursor_request (tablet_tool : Bool) (device version serial surface : Nat) (x y : Int) :
    Request :=
  { proxy := device,
    opcode := if tablet_tool then ZWP_TABLET_TOOL_V2_SET_CURSOR else WL_POINTER_SET_CURSOR,
    interface := 0, version := version, flags := 0,
    args := [.u serial, .o surface, .i x, .i y] }

/-- The interface name of the device a cursor-set request of the given kind is sent on. -/
def device_class (tablet_tool : Bool) : String :=
  if tablet_tool then "zwp_tablet_tool_v2" else "wl_pointer"

/-- The creation request `get_cursor_shape_device` issues for a device of the given kind. -/
def creation_event (tablet_tool : Bool) (cursor_shape_manager object : Nat) : WireEvent :=
  if tablet_tool then .get_tablet_tool_v2 cursor_shape_manager object
  else .get_pointer cursor_shape_manager object

/-- A request the switch of lines 384-406 masks on surface `S`: set_buffer_scale, damage or
commit on a `wl_surface` proxy `S`. -/
def masked_on (h : Heap) (S : Nat) (q : Request) : Prop :=
  q.proxy = S ∧ (h S).interface_name = "wl_surface" ∧
    (q.opcode = WL_SURFACE_SET_BUFFER_SCALE ∨ q.opcode = WL_SURFACE_DAMAGE ∨
      q.opcode = WL_SURFACE_COMMIT)

instance (h : Heap) (S : Nat) (q : Request) : Decidable (masked_on h S q) := by
  unfold masked_on; infer_instance

/-- A small client memory: pointer 5, tablet tool 6 and surface 9 on display 7; every other
address is a `wl_compositor` proxy. -/
def demo_heap : Heap := fun a =>
  if a = 5 then ⟨"wl_pointer", 7⟩
  else if a = 6 then ⟨"zwp_tablet_tool_v2", 7⟩
  else if a = 9 then ⟨"wl_surface", 7⟩
  else ⟨"wl_compositor", 7⟩

/-- The client stub `wl_surface_attach(surface, buffer, x, y)`. -/
def attach_request (surface buffer : Nat) (x y : Int) : Request :=
  { proxy := surface, opcode := WL_SURFACE_ATTACH, interface := 0, version := 1, flags := 0,
    args := [.o buffer, .i x, .i y] }

/-- The client stub `wl_surface_damage(surface, x, y, width, height)`. -/
def damage_request (surface : Nat) (x y width height : Int) : Request :=
  { proxy := surface, opcode := WL_SURFACE_DAMAGE, interface := 0, version := 1, flags := 0,
    args := [.i x, .i y, .i width, .i height] }

/-- The client stub `wl_surface_commit(surface)`. -/
def commit_request (surface : Nat) : Request :=
  { proxy := surface, opcode := WL_SURFACE_COMMIT, interface := 0, version := 1, flags := 0,
    args := [] }

/-- A request on another object: `wl_compositor.create_surface` on proxy 1. -/
def other_request : Request :=
  { proxy := 1, opcode := 0, interface := 77, version := 4, flags := 0, args := [.o 0] }

/-- The state after `init`, the registry hook having registered manager 11 for display 7 and
`wl_cursor_theme_get_cursor` having loaded "pointer" with one image of buffer 100; the
library will create the proxies 31 and 32. -/
def demo_world : World :=
  register_wl_cursor_buffers (register_display_shape_manager (init ⟨[]⟩ [31, 32]) 7 11).2
    "pointer" ⟨[⟨100⟩]⟩

/-- The same state on a compositor without the cursor-shape global: no manager is
registered for any display. -/
def demo_world_no_manager : World :=
  register_wl_cursor_buffers (init ⟨[]⟩ [31, 32]) "pointer" ⟨[⟨100⟩]⟩

/-! ## Two threads in `get_cursor_shape_device`

The function holds `mutex` in two sections (lines 220-234 and 254-270); the creation request
and the destroy request are issued outside of them. A thread is therefore a small machine
whose steps are atomic, and two threads interleave at the step boundaries. -/

/-- Where a thread stands inside `get_cursor_shape_device`. -/
inductive gcsd_pc
  /-- At the entry of the function. -/
  | start
  /-- After the first locked section found no device: holds the manager it read. -/
  | unlocked (cursor_shape_manager : Nat)
  /-- After the creation request returned a non-null device. -/
  | created (cursor_shape_device : Nat)
  /-- After the second locked section found another thread's device: about to destroy. -/
  | destroying (cursor_shape_device other_cursor_shape_device : Nat)
  /-- The function has returned. -/
  | returned (result : Nat)
  deriving DecidableEq, Repr

/-- One atomic step of a thread in `get_cursor_shape_device(object, tablet_tool)`. -/
def gcsd_step (h : Heap) (object : Nat) (tablet_tool : Bool) (w : World) :
    gcsd_pc → World × gcsd_pc
  | .start =>
    let cursor_shape_device := g_hash_table_lookup w.object_cursor_shape_device_map object
    if cursor_shape_device ≠ 0 then
      (w, .returned cursor_shape_device)
    else
      (w, .unlocked (g_hash_table_lookup w.display_cursor_shape_manager_map (h object).display))
  | .unlocked cursor_shape_manager =>
    if cursor_shape_manager = 0 then
      (w, .returned 0)
    else
      let r := create_cursor_shape_device w cursor_shape_manager object tablet_tool
      if r.1 = 0 then (r.2, .returned 0) else (r.2, .created r.1)
  | .created cursor_shape_device =>
    let other_cursor_shape_device :=
      g_hash_table_lookup w.object_cursor_shape_device_map object
    if other_cursor_shape_device ≠ 0 then
      (w, .destroying cursor_shape_device other_cursor_shape_device)
    else
      ({ w with object_cursor_shape_device_map :=
          (g_hash_table_insert w.object_cursor_shape_device_map object cursor_shape_device) },
        .returned cursor_shape_device)
  | .destroying cursor_shape_device other_cursor_shape_device =>
    (w.emit (.destroy cursor_shape_device), .returned other_cursor_shape_device)
  | .returned result => (w, .returned result)

/-- A thread running `n` steps on its own. -/
def gcsd_iterate (h : Heap) (object : Nat) (tablet_tool : Bool) :
    Nat → World × gcsd_pc → World × gcsd_pc
  | 0, s => s
  | n + 1, s => gcsd_iterate h object tablet_tool n (gcsd_step h object tablet_tool s.1 s.2)

/-- The thread has passed the first cache check and has not entered the second locked
section. -/
def gcsd_pc.in_flight : gcsd_pc → Bool
  | .unlocked _ => true
  | .created _ => true
  | _ => false

/-- An upper bound on the steps a thread still takes before it has returned. -/
def gcsd_pc.remaining : gcsd_pc → Nat
  | .start => 4
  | .unlocked _ => 3
  | .created _ => 2
  | .destroying _ _ => 1
  | .returned _ => 0

/-- Two threads inside `get_cursor_shape_device` for the same object, and the shared state. -/
structure Race where
  w : World
  pc1 : gcsd_pc
  pc2 : gcsd_pc
  deriving DecidableEq, Repr

/-- The scheduler lets one thread take a step: the second thread when `second`, else the
first. -/
def race_step (h : Heap) (object : Nat) (k1 k2 : Bool) (st : Race) (second : Bool) : Race :=
  if second then
    { w := (gcsd_step h object k2 st.w st.pc2).1, pc1 := st.pc1,
      pc2 := (gcsd_step h object k2 st.w st.pc2).2 }
  else
    { w := (gcsd_step h object k1 st.w st.pc1).1,
      pc1 := (gcsd_step h object k1 st.w st.pc1).2, pc2 := st.pc2 }

/-- A whole schedule: the list says which thread steps next. -/
def race_run (h : Heap) (object : Nat) (k1 k2 : Bool) (st : Race) (sched : List Bool) : Race :=
  sched.foldl (race_step h object k1 k2) st

/-- The shared state during a race on `object`: `winner` is the device inserted so far
(0 for none), `evs` the requests sent so far, `fresh` what the library will still create. -/
def race_world (w : World) (object winner : Nat) (evs : List WireEvent) (fresh : List Nat) :
    World :=
  { w with
    object_cursor_shape_device_map :=
      (if winner = 0 then w.object_cursor_shape_device_map
        else g_hash_table_insert w.object_cursor_shape_device_map object winner),
    wire := w.wire ++ evs,
    fresh := fresh }

/-- The states two threads can be in before either has entered the second locked section
(`gone` collects every state in which one has). -/
inductive PreInv (w : World) (o M d1 d2 : Nat) (rest : List Nat) (e1 e2 : WireEvent) :
    Race → Prop
  | ss : PreInv w o M d1 d2 rest e1 e2 ⟨race_world w o 0 [] (d1 :: d2 :: rest), .start, .start⟩
  | su : PreInv w o M d1 d2 rest e1 e2
      ⟨race_world w o 0 [] (d1 :: d2 :: rest), .start, .unlocked M⟩
  | us : PreInv w o M d1 d2 rest e1 e2
      ⟨race_world w o 0 [] (d1 :: d2 :: rest), .unlocked M, .start⟩
  | uu : PreInv w o M d1 d2 rest e1 e2
      ⟨race_world w o 0 [] (d1 :: d2 :: rest), .unlocked M, .unlocked M⟩
  | cs : PreInv w o M d1 d2 rest e1 e2 ⟨race_world w o 0 [e1] (d2 :: rest), .created d1, .start⟩
  | cu : PreInv w o M d1 d2 rest e1 e2
      ⟨race_world w o 0 [e1] (d2 :: rest), .created d1, .unlocked M⟩
  | sc : PreInv w o M d1 d2 rest e1 e2 ⟨race_world w o 0 [e2] (d2 :: rest), .start, .created d1⟩
  | uc : PreInv w o M d1 d2 rest e1 e2
      ⟨race_world w o 0 [e2] (d2 :: rest), .unlocked M, .created d1⟩
  | cc12 : PreInv w o M d1 d2 rest e1 e2
      ⟨race_world w o 0 [e1, e2] rest, .created d1, .created d2⟩
  | cc21 : PreInv w o M d1 d2 rest e1 e2
      ⟨race_world w o 0 [e2, e1] rest, .created d2, .created d1⟩
  | gone (st : Race) (hg : st.pc1.remaining ≤ 1 ∨ st.pc2.remaining ≤ 1) :
      PreInv w o M d1 d2 rest e1 e2 st

/-- The states two racing threads can be in once both have passed the first cache check
with the cache still empty. Thread 1 sends `e1` and thread 2 sends `e2` to create its
device; the first creation yields `d1`, the second `d2`. -/
inductive RaceInv (w : World) (o M d1 d2 : Nat) (rest : List Nat) (e1 e2 : WireEvent) :
    Race → Prop
  | uu : RaceInv w o M d1 d2 rest e1 e2
      ⟨race_world w o 0 [] (d1 :: d2 :: rest), .unlocked M, .unlocked M⟩
  | cu : RaceInv w o M d1 d2 rest e1 e2
      ⟨race_world w o 0 [e1] (d2 :: rest), .created d1, .unlocked M⟩
  | uc : RaceInv w o M d1 d2 rest e1 e2
      ⟨race_world w o 0 [e2] (d2 :: rest), .unlocked M, .created d1⟩
  | ru : RaceInv w o M d1 d2 rest e1 e2
      ⟨race_world w o d1 [e1] (d2 :: rest), .returned d1, .unlocked M⟩
  | ur : RaceInv w o M d1 d2 rest e1 e2
      ⟨race_world w o d1 [e2] (d2 :: rest), .unlocked M, .returned d1⟩
  | cc12 : RaceInv w o M d1 d2 rest e1 e2
      ⟨race_world w o 0 [e1, e2] rest, .created d1, .created d2⟩
  | rc12 : RaceInv w o M d1 d2 rest e1 e2
      ⟨race_world w o d1 [e1, e2] rest, .returned d1, .created d2⟩
  | rx12 : RaceInv w o M d1 d2 rest e1 e2
      ⟨race_world w o d1 [e1, e2] rest, .returned d1, .destroying d2 d1⟩
  | rr12 : RaceInv w o M d1 d2 rest e1 e2
      ⟨race_world w o d1 [e1, e2, .destroy d2] rest, .returned d1, .returned d1⟩
  | cr12 : RaceInv w o M d1 d2 rest e1 e2
      ⟨race_world w o d2 [e1, e2] rest, .created d1, .returned d2⟩
  | xr12 : RaceInv w o M d1 d2 rest e1 e2
      ⟨race_world w o d2 [e1, e2] rest, .destroying d1 d2, .returned d2⟩
  | qq12 : RaceInv w o M d1 d2 rest e1 e2
      ⟨race_world w o d2 [e1, e2, .destroy d1] rest, .returned d2, .returned d2⟩
  | cc21 : RaceInv w o M d1 d2 rest e1 e2
      ⟨race_world w o 0 [e2, e1] rest, .created d2, .created d1⟩
  | rc21 : RaceInv w o M d1 d2 rest e1 e2
      ⟨race_world w o d2 [e2, e1] rest, .returned d2, .created d1⟩
  | rx21 : RaceInv w o M d1 d2 rest e1 e2
      ⟨race_world w o d2 [e2, e1] rest, .returned d2, .destroying d1 d2⟩
  | rr21 : RaceInv w o M d1 d2 rest e1 e2
      ⟨race_world w o d2 [e2, e1, .destroy d1] rest, .returned d2, .returned d2⟩
  | cr21 : RaceInv w o M d1 d2 rest e1 e2
      ⟨race_world w o d1 [e2, e1] rest, .created d2, .returned d1⟩
  | xr21 : RaceInv w o M d1 d2 rest e1 e2
      ⟨race_world w o d1 [e2, e1] rest, .destroying d2 d1, .returned d1⟩
  | qq21 : RaceInv w o M d1 d2 rest e1 e2
      ⟨race_world w o d1 [e2, e1, .destroy d2] rest, .returned d1, .returned d1⟩

/-- Modelled from the spec: the canonical name of a shape, the "canonical cursor name" the
Shape Name Registry is keyed by. It is the name of the entry of the cursor-shape-v1 `shape`
enum (protocol description not in the repository) written with hyphens, so that name X
belongs to `WP_CURSOR_SHAPE_DEVICE_V1_SHAPE_X`. -/
def Shape.canonical_name : Shape → String
  | .DEFAULT => "default" | .CONTEXT_MENU => "context-menu" | .HELP => "help"
  | .POINTER => "pointer" | .PROGRESS => "progress" | .WAIT => "wait" | .CELL => "cell"
  | .CROSSHAIR => "crosshair" | .TEXT => "text" | .VERTICAL_TEXT => "vertical-text"
  | .ALIAS => "alias" | .COPY => "copy" | .MOVE => "move" | .NO_DROP => "no-drop"
  | .NOT_ALLOWED => "not-allowed" | .GRAB => "grab" | .GRABBING => "grabbing"
  | .E_RESIZE => "e-resize" | .N_RESIZE => "n-resize" | .NE_RESIZE => "ne-resize"
  | .NW_RESIZE => "nw-resize" | .S_RESIZE => "s-resize" | .SE_RESIZE => "se-resize"
  | .SW_RESIZE => "sw-resize" | .W_RESIZE => "w-resize" | .EW_RESIZE => "ew-resize"
  | .NS_RESIZE => "ns-resize" | .NESW_RESIZE => "nesw-resize" | .NWSE_RESIZE => "nwse-resize"
  | .COL_RESIZE => "col-resize" | .ROW_RESIZE => "row-resize" | .ALL_SCROLL => "all-scroll"
  | .ZOOM_IN => "zoom-in" | .ZOOM_OUT => "zoom-out"

/-- A mirrored GTK theme of three cursors: "pointer" with the images of buffers 100 and 101,
"my-custom" (a name the registry does not know) with buffer 102, and "text" with an image
that reuses buffer 100. No cursor owns buffer 200. -/
def demo_theme : gtk_wl_cursor_theme :=
  ⟨[⟨[⟨100⟩, ⟨101⟩], "pointer"⟩, ⟨[⟨102⟩], "my-custom"⟩, ⟨[⟨100⟩], "text"⟩]⟩

/-- The rewrite of an attach `q`, in state `w` with deferred data `d`, runs to its end: the
buffer lookup of line 386 does not fail and, when the shape is nonzero, the device that
line 391 obtains is not `NULL`. -/
def rewrite_completes (h : Heap) (w : World) (d : deferred_set_cursor_data) (q : Request) :
    Prop :=
  match lookup_buffer_shape w (q.arg 0).get_o with
  | none => False
  | some (shape, w1) =>
    shape = 0 ∨ (get_cursor_shape_device_from_hook h w1 d d.object d.tablet_tool).1 ≠ 0

instance (h : Heap) (w : World) (d : deferred_set_cursor_data) (q : Request) :
    Decidable (rewrite_completes h w d q) := by
  unfold rewrite_completes
  split <;> infer_instance

/-- The state `demo_world` once pointer 5 has its shape device 31 in the cache. -/
def demo_world_device : World :=
  { demo_world with
    object_cursor_shape_device_map := (g_hash_table_insert [] 5 31), fresh := [32] }

/-! ## Hash table facts -/

theorem lookup_extended_insert {κ : Type} [DecidableEq κ] (t : GHashTable κ) (k k2 : κ)
    (v : Nat) :
    g_hash_table_lookup_extended (g_hash_table_insert t k v) k2
      = if k = k2 then some v else g_hash_table_lookup_extended t k2 := by
  unfold g_hash_table_insert
  by_cases hk : k = k2
  · simp [g_hash_table_lookup_extended, hk]
  · simp only [g_hash_table_lookup_extended, hk, if_false]
    induction t with
    | nil => simp [g_hash_table_lookup_extended]
    | cons e t ih =>
      obtain ⟨a, b⟩ := e
      simp only [ne_eq, decide_not] at ih ⊢
      by_cases ha : a = k
      · subst ha
        simp [List.filter_cons, g_hash_table_lookup_extended, hk, ih]
      · by_cases ha2 : a = k2
        · subst ha2
          simp [List.filter_cons, g_hash_table_lookup_extended, ha]
        · simp [List.filter_cons, g_hash_table_lookup_extended, ha, ha2, ih]

theorem lookup_insert {κ : Type} [DecidableEq κ] (t : GHashTable κ) (k k2 : κ) (v : Nat) :
    g_hash_table_lookup (g_hash_table_insert t k v) k2
      = if k = k2 then v else g_hash_table_lookup t k2 := by
  unfold g_hash_table_lookup
  rw [lookup_extended_insert]
  split <;> rfl

theorem lookup_insert_self {κ : Type} [DecidableEq κ] (t : GHashTable κ) (k : κ) (v : Nat) :
    g_hash_table_lookup (g_hash_table_insert t k v) k = v := by
  simp [lookup_insert]

theorem lookup_insert_other {κ : Type} [DecidableEq κ] (t : GHashTable κ) (k k2 : κ) (v : Nat)
    (hne : k ≠ k2) :
    g_hash_table_lookup (g_hash_table_insert t k v) k2 = g_hash_table_lookup t k2 := by
  simp [lookup_insert, hne]

theorem mem_of_lookup_extended {κ : Type} [DecidableEq κ] (t : GHashTable κ) (k : κ) (v : Nat)
    (hl : g_hash_table_lookup_extended t k = some v) : (k, v) ∈ t := by
  induction t with
  | nil => simp [g_hash_table_lookup_extended] at hl
  | cons e t ih =>
    obtain ⟨a, b⟩ := e
    by_cases ha : a = k
    · simp [g_hash_table_lookup_extended, ha] at hl
      simp [ha, hl]
    · simp [g_hash_table_lookup_extended, ha] at hl
      exact List.mem_cons_of_mem _ (ih hl)

theorem mem_insert {κ : Type} [DecidableEq κ] (t : GHashTable κ) (k : κ) (v : Nat)
    (e : κ × Nat) (he : e ∈ g_hash_table_insert t k v) : e = (k, v) ∨ e ∈ t := by
  unfold g_hash_table_insert at he
  rcases List.mem_cons.mp he with h1 | h1
  · exact Or.inl h1
  · exact Or.inr (List.mem_filter.mp h1).1

theorem mem_foldl_insert (l : List (String × Nat)) (m : GHashTable String) (e : String × Nat)
    (he : e ∈ l.foldl (fun m e => g_hash_table_insert m e.1 e.2) m) : e ∈ m ∨ e ∈ l := by
  induction l generalizing m with
  | nil => exact Or.inl he
  | cons a l ih =>
    rcases ih _ he with h1 | h1
    · rcases mem_insert _ _ _ _ h1 with h2 | h2
      · exact Or.inr (by simp [h2])
      · exact Or.inl h2
    · exact Or.inr (List.mem_cons_of_mem _ h1)

/-- Every shape of the registry is a shape of the table, and none is the sentinel 0. -/
theorem cursor_shape_map_ne_zero (name : String) (value : Nat)
    (hl : g_hash_table_lookup_extended cursor_shape_map name = some value) : value ≠ 0 := by
  have hm := mem_of_lookup_extended _ _ _ hl
  rcases mem_foldl_insert _ _ _ hm with h1 | h1
  · simp at h1
  · have hall : ∀ e ∈ cursor_shape_list, e.2 ≠ 0 := by
      simp [cursor_shape_list, Shape.val]
    exact hall _ h1

/-- The table after the loop of `register_wl_cursor_buffers`. -/
theorem lookup_extended_foldl_images (images : List wl_cursor_image) (m : GHashTable Nat)
    (value b : Nat) :
    g_hash_table_lookup_extended
        (images.foldl (fun m image => g_hash_table_insert m image.buffer value) m) b
      = if b ∈ images.map (fun image => image.buffer) then some value
        else g_hash_table_lookup_extended m b := by
  induction images generalizing m with
  | nil => simp
  | cons i is ih =>
    simp only [List.foldl_cons, List.map_cons, List.mem_cons]
    rw [ih, lookup_extended_insert]
    by_cases h1 : b ∈ is.map (fun image => image.buffer)
    · simp [h1]
    · by_cases h2 : i.buffer = b
      · simp [h2]
      · have h3 : ¬ b = i.buffer := fun hh => h2 hh.symm
        simp [h1, h2, h3]

/-! ## The buffer to shape cache -/

/-- C5 (as stated, refuted): buffer 100 is unmapped at start; it is registered through
`register_wl_cursor_buffers` under "progress" (shape 5) and then under "cell" (shape 7);
`lookup_buffer_shape` afterwards returns 7, not the first shape 5. -/
theorem buffer_shape_first_write_does_not_win :
    g_hash_table_lookup (init ⟨[]⟩ []).buffer_shape_map 100 = 0 ∧
    g_hash_table_lookup_extended cursor_shape_map "progress" = some 5 ∧
    g_hash_table_lookup_extended cursor_shape_map "cell" = some 7 ∧
    (lookup_buffer_shape
        (register_wl_cursor_buffers
          (register_wl_cursor_buffers (init ⟨[]⟩ []) "progress" ⟨[⟨100⟩]⟩) "cell" ⟨[⟨100⟩]⟩)
        100).map Prod.fst = some 7 ∧
    (lookup_buffer_shape
        (register_wl_cursor_buffers
          (register_wl_cursor_buffers (init ⟨[]⟩ []) "progress" ⟨[⟨100⟩]⟩) "cell" ⟨[⟨100⟩]⟩)
        100).map Prod.fst ≠ some 5 := by
  decide

/-- C5 (amended): the buffer to shape cache is last-write-wins. When buffer `b` is registered
through `register_wl_cursor_buffers` under a name of shape `s1` and then under a name of
shape `s2`, `lookup_buffer_shape b` returns `s1` after the first registration and `s2` after
the second: registering a mapped buffer replaces its entry. -/
theorem buffer_shape_last_write_wins (w : World) (name1 name2 : String) (c1 c2 : wl_cursor)
    (s1 s2 b : Nat)
    (h1 : g_hash_table_lookup_extended cursor_shape_map name1 = some s1)
    (h2 : g_hash_table_lookup_extended cursor_shape_map name2 = some s2)
    (hb1 : b ∈ c1.images.map (fun image => image.buffer))
    (hb2 : b ∈ c2.images.map (fun image => image.buffer)) :
    lookup_buffer_shape (register_wl_cursor_buffers w name1 c1) b
        = some (s1, register_wl_cursor_buffers w name1 c1) ∧
    lookup_buffer_shape
        (register_wl_cursor_buffers (register_wl_cursor_buffers w name1 c1) name2 c2) b
        = some (s2,
            register_wl_cursor_buffers (register_wl_cursor_buffers w name1 c1) name2 c2) := by
  have hs1 := cursor_shape_map_ne_zero _ _ h1
  have hs2 := cursor_shape_map_ne_zero _ _ h2
  constructor
  · simp [lookup_buffer_shape, register_wl_cursor_buffers, h1, g_hash_table_lookup,
      lookup_extended_foldl_images, hb1, hs1]
  · simp [lookup_buffer_shape, register_wl_cursor_buffers, h1, h2, g_hash_table_lookup,
      lookup_extended_foldl_images, hb2, hs2]

/-- C5 (amended), at "progress" (5) then "cell" (7) on buffer 100 of a fresh cache. -/
theorem buffer_shape_last_write_wins_witness :
    lookup_buffer_shape (register_wl_cursor_buffers (init ⟨[]⟩ []) "progress" ⟨[⟨100⟩]⟩) 100
        = some (5, register_wl_cursor_buffers (init ⟨[]⟩ []) "progress" ⟨[⟨100⟩]⟩) ∧
    lookup_buffer_shape
        (register_wl_cursor_buffers
          (register_wl_cursor_buffers (init ⟨[]⟩ []) "progress" ⟨[⟨100⟩]⟩) "cell" ⟨[⟨100⟩]⟩) 100
        = some (7,
            register_wl_cursor_buffers
              (register_wl_cursor_buffers (init ⟨[]⟩ []) "progress" ⟨[⟨100⟩]⟩) "cell"
              ⟨[⟨100⟩]⟩) :=
  buffer_shape_last_write_wins (init ⟨[]⟩ []) "progress" "cell" ⟨[⟨100⟩]⟩ ⟨[⟨100⟩]⟩ 5 7 100
    (by decide) (by decide) (by decide) (by decide)

/-- C7: when the real `wl_cursor_theme_get_cursor` returns a cursor for a name of the shape
registry, the hook returns that same cursor, and afterwards `lookup_buffer_shape` of the
buffer of every image of the cursor is the registry shape of the name. -/
theorem get_cursor_registers_all_images (next : Nat → String → Option wl_cursor) (w : World)
    (theme : Nat) (name : String) (cursor : wl_cursor) (value : Nat)
    (hreal : next theme name = some cursor)
    (hname : g_hash_table_lookup_extended cursor_shape_map name = some value) :
    (wl_cursor_theme_get_cursor next w theme name).1 = some cursor ∧
    ∀ i : Nat, ∀ hi : i < cursor.images.length,
      lookup_buffer_shape (wl_cursor_theme_get_cursor next w theme name).2
          (cursor.images.get ⟨i, hi⟩).buffer
        = some (value, (wl_cursor_theme_get_cursor next w theme name).2) := by
  have hv := cursor_shape_map_ne_zero _ _ hname
  refine ⟨by simp [wl_cursor_theme_get_cursor, hreal], ?_⟩
  intro i hi
  have hmem : (cursor.images.get ⟨i, hi⟩).buffer
      ∈ cursor.images.map (fun image => image.buffer) :=
    List.mem_map.mpr ⟨_, List.get_mem _ _ _, rfl⟩
  simp only [wl_cursor_theme_get_cursor, hreal, register_wl_cursor_buffers, hname,
    lookup_buffer_shape, g_hash_table_lookup, lookup_extended_foldl_images, hmem, if_true,
    Option.getD_some]
  simp [hv]

/-- C7 at the cursor "pointer" with the two images of buffers 21 and 22: both map to 4. -/
theorem get_cursor_registers_all_images_witness :
    (wl_cursor_theme_get_cursor (fun _ _ => some ⟨[⟨21⟩, ⟨22⟩]⟩) (init ⟨[]⟩ []) 1 "pointer").1
        = some ⟨[⟨21⟩, ⟨22⟩]⟩ ∧
    ∀ i : Nat, ∀ hi : i < (wl_cursor.mk [⟨21⟩, ⟨22⟩]).images.length,
      lookup_buffer_shape
          (wl_cursor_theme_get_cursor (fun _ _ => some ⟨[⟨21⟩, ⟨22⟩]⟩) (init ⟨[]⟩ []) 1
            "pointer").2
          ((wl_cursor.mk [⟨21⟩, ⟨22⟩]).images.get ⟨i, hi⟩).buffer
        = some (4,
            (wl_cursor_theme_get_cursor (fun _ _ => some ⟨[⟨21⟩, ⟨22⟩]⟩) (init ⟨[]⟩ []) 1
              "pointer").2) :=
  get_cursor_registers_all_images (fun _ _ => some ⟨[⟨21⟩, ⟨22⟩]⟩) (init ⟨[]⟩ []) 1 "pointer"
    ⟨[⟨21⟩, ⟨22⟩]⟩ 4 rfl (by decide)

/-! ## Shape managers and shape devices -/

/-- C6 (as stated, refuted): `register_display_shape_manager` returns `void`. On display 7
the winning first call (manager 11) and the losing second call (manager 12) hand back the
same thing, so no call reports success or failure; the cache still holds 11. -/
theorem shape_manager_registration_reports_nothing :
    (register_display_shape_manager (init ⟨[]⟩ []) 7 11).1
      = (register_display_shape_manager
          (register_display_shape_manager (init ⟨[]⟩ []) 7 11).2 7 12).1 ∧
    g_hash_table_lookup
        (register_display_shape_manager
          (register_display_shape_manager (init ⟨[]⟩ []) 7 11).2 7
          12).2.display_cursor_shape_manager_map 7 = 11 := by
  decide

theorem register_display_shape_manager_noop (w : World) (d m : Nat)
    (hreg : g_hash_table_lookup w.display_cursor_shape_manager_map d ≠ 0) :
    (register_display_shape_manager w d m).2 = w := by
  simp [register_display_shape_manager, hreg]

theorem register_display_shape_managers_noop (w : World) (d : Nat) (ms : List Nat)
    (hreg : g_hash_table_lookup w.display_cursor_shape_manager_map d ≠ 0) :
    register_display_shape_managers w d ms = w := by
  induction ms with
  | nil => rfl
  | cons m ms ih =>
    unfold register_display_shape_managers at ih ⊢
    rw [List.foldl_cons, register_display_shape_manager_noop w d m hreg]
    exact ih

/-- C6 (amended): `register_display_shape_manager` reports nothing (it returns `void`). For
a display `d` without a manager and a non-null manager `M1`, after registering `M1` the
manager cached for `d` is `M1`; any number of later registrations on `d` leave the whole
state as it was after the first one; the entries of other displays are unchanged. -/
theorem shape_manager_first_registration_stands (w : World) (d M1 : Nat) (later : List Nat)
    (d2 : Nat)
    (hfree : g_hash_table_lookup w.display_cursor_shape_manager_map d = 0)
    (hM1 : M1 ≠ 0) (hd2 : d2 ≠ d) :
    g_hash_table_lookup
        (register_display_shape_manager w d M1).2.display_cursor_shape_manager_map d = M1 ∧
    register_display_shape_managers (register_display_shape_manager w d M1).2 d later
        = (register_display_shape_manager w d M1).2 ∧
    g_hash_table_lookup
        (register_display_shape_managers (register_display_shape_manager w d M1).2 d
          later).display_cursor_shape_manager_map d = M1 ∧
    g_hash_table_lookup
        (register_display_shape_managers (register_display_shape_manager w d M1).2 d
          later).display_cursor_shape_manager_map d2
      = g_hash_table_lookup w.display_cursor_shape_manager_map d2 := by
  have h1 : g_hash_table_lookup
      (register_display_shape_manager w d M1).2.display_cursor_shape_manager_map d = M1 := by
    simp [register_display_shape_manager, hfree, lookup_insert_self]
  have h2 : register_display_shape_managers (register_display_shape_manager w d M1).2 d later
      = (register_display_shape_manager w d M1).2 :=
    register_display_shape_managers_noop _ _ _ (by rw [h1]; exact hM1)
  refine ⟨h1, h2, by rw [h2]; exact h1, ?_⟩
  rw [h2]
  simp [register_display_shape_manager, hfree, lookup_insert_other _ _ _ _ (Ne.symm hd2)]

/-- C6 (amended) on display 7: manager 11 first, then 12 and 13; display 8 is untouched. -/
theorem shape_manager_first_registration_stands_witness :
    g_hash_table_lookup
        (register_display_shape_manager (init ⟨[]⟩ []) 7 11).2.display_cursor_shape_manager_map
        7 = 11 ∧
    register_display_shape_managers (register_display_shape_manager (init ⟨[]⟩ []) 7 11).2 7
        [12, 13] = (register_display_shape_manager (init ⟨[]⟩ []) 7 11).2 ∧
    g_hash_table_lookup
        (register_display_shape_managers (register_display_shape_manager (init ⟨[]⟩ []) 7 11).2
          7 [12, 13]).display_cursor_shape_manager_map 7 = 11 ∧
    g_hash_table_lookup
        (register_display_shape_managers (register_display_shape_manager (init ⟨[]⟩ []) 7 11).2
          7 [12, 13]).display_cursor_shape_manager_map 8
      = g_hash_table_lookup (init ⟨[]⟩ []).display_cursor_shape_manager_map 8 :=
  shape_manager_first_registration_stands (init ⟨[]⟩ []) 7 11 [12, 13] 8 (by decide)
    (by decide) (by decide)

theorem get_cursor_shape_device_cached (h : Heap) (w : World) (o : Nat) (k : Bool)
    (hc : g_hash_table_lookup w.object_cursor_shape_device_map o ≠ 0) :
    get_cursor_shape_device h w o k
      = (g_hash_table_lookup w.object_cursor_shape_device_map o, w) := by
  simp [get_cursor_shape_device, hc]

theorem get_cursor_shape_device_series_cached (h : Heap) (w : World) (o : Nat)
    (ks : List Bool) (hc : g_hash_table_lookup w.object_cursor_shape_device_map o ≠ 0) :
    get_cursor_shape_device_series h o w ks
      = (List.replicate ks.length (g_hash_table_lookup w.object_cursor_shape_device_map o),
          w) := by
  induction ks with
  | nil => rfl
  | cons k ks ih =>
    simp [get_cursor_shape_device_series, get_cursor_shape_device_cached h w o k hc, ih,
      List.replicate_succ]

theorem get_cursor_shape_device_fresh (h : Heap) (w : World) (o : Nat) (k : Bool)
    (hfree : g_hash_table_lookup w.object_cursor_shape_device_map o = 0)
    (hM : g_hash_table_lookup w.display_cursor_shape_manager_map (h o).display ≠ 0)
    (hdev : w.fresh.headD 0 ≠ 0) :
    get_cursor_shape_device h w o k
      = (w.fresh.headD 0,
          { w with
            object_cursor_shape_device_map :=
              (g_hash_table_insert w.object_cursor_shape_device_map o (w.fresh.headD 0)),
            wire := w.wire ++
              [if k then WireEvent.get_tablet_tool_v2
                  (g_hash_table_lookup w.display_cursor_shape_manager_map (h o).display) o
                else WireEvent.get_pointer
                  (g_hash_table_lookup w.display_cursor_shape_manager_map (h o).display) o],
            fresh := w.fresh.tail }) := by
  have hdev2 := hdev
  simp only [List.headD_eq_head?_getD] at hdev2
  simp [get_cursor_shape_device, create_cursor_shape_device, hfree, hM, hdev2]

/-- C8: for a device object `o` without a cached shape device, on a display with a
registered manager whose creation call succeeds, a series of one or more sequential
`get_cursor_shape_device(o, kind)` calls issues exactly one request, the creation call of
the first call's kind; every call returns the created device; the cache maps `o` to it
afterwards; no device is destroyed. -/
theorem shape_device_created_once (h : Heap) (w : World) (o : Nat) (k : Bool)
    (ks : List Bool)
    (hfree : g_hash_table_lookup w.object_cursor_shape_device_map o = 0)
    (hM : g_hash_table_lookup w.display_cursor_shape_manager_map (h o).display ≠ 0)
    (hdev : w.fresh.headD 0 ≠ 0) :
    (get_cursor_shape_device_series h o w (k :: ks)).1
      = List.replicate (ks.length + 1) (w.fresh.headD 0) ∧
    (get_cursor_shape_device_series h o w (k :: ks)).2.wire
      = w.wire ++
          [if k then WireEvent.get_tablet_tool_v2
              (g_hash_table_lookup w.display_cursor_shape_manager_map (h o).display) o
            else WireEvent.get_pointer
              (g_hash_table_lookup w.display_cursor_shape_manager_map (h o).display) o] ∧
    g_hash_table_lookup
        (get_cursor_shape_device_series h o w (k :: ks)).2.object_cursor_shape_device_map o
      = w.fresh.headD 0 ∧
    (∀ dev, WireEvent.destroy dev ∉ (get_cursor_shape_device_series h o w (k :: ks)).2.wire
        ∨ WireEvent.destroy dev ∈ w.wire) := by
  have hstep := get_cursor_shape_device_fresh h w o k hfree hM hdev
  have hser : get_cursor_shape_device_series h o w (k :: ks)
      = (w.fresh.headD 0 :: List.replicate ks.length (w.fresh.headD 0),
          (get_cursor_shape_device h w o k).2) := by
    have hc : g_hash_table_lookup
        (get_cursor_shape_device h w o k).2.object_cursor_shape_device_map o ≠ 0 := by
      rw [hstep]; simpa [lookup_insert_self] using hdev
    have hv : g_hash_table_lookup
        (get_cursor_shape_device h w o k).2.object_cursor_shape_device_map o
          = w.fresh.headD 0 := by
      rw [hstep]; simp [lookup_insert_self]
    simp only [get_cursor_shape_device_series]
    rw [get_cursor_shape_device_series_cached h _ o ks hc, hv, hstep]
  rw [hser, hstep]
  refine ⟨by simp [List.replicate_succ], rfl, by simp [lookup_insert_self], ?_⟩
  intro dev
  by_cases hin : WireEvent.destroy dev ∈ w.wire
  · exact Or.inr hin
  · left
    simp only [List.mem_append, List.mem_singleton, not_or]
    refine ⟨hin, ?_⟩
    cases k <;> simp

/-- C8 on pointer 5 of display 7 (manager 11), the library creating device 31: three calls
return 31 each and one `get_pointer` request is sent. -/
theorem shape_device_created_once_witness :
    (get_cursor_shape_device_series (fun _ => ⟨"wl_pointer", 7⟩) 5
        (register_display_shape_manager (init ⟨[]⟩ [31, 32]) 7 11).2
        (false :: [false, true])).1
      = List.replicate ([false, true].length + 1)
          ((register_display_shape_manager (init ⟨[]⟩ [31, 32]) 7 11).2.fresh.headD 0) ∧
    (get_cursor_shape_device_series (fun _ => ⟨"wl_pointer", 7⟩) 5
        (register_display_shape_manager (init ⟨[]⟩ [31, 32]) 7 11).2
        (false :: [false, true])).2.wire
      = (register_display_shape_manager (init ⟨[]⟩ [31, 32]) 7 11).2.wire ++
          [if false then WireEvent.get_tablet_tool_v2
              (g_hash_table_lookup
                (register_display_shape_manager (init ⟨[]⟩ [31, 32]) 7
                  11).2.display_cursor_shape_manager_map
                ((fun _ => (⟨"wl_pointer", 7⟩ : wl_proxy)) 5).display) 5
            else WireEvent.get_pointer
              (g_hash_table_lookup
                (register_display_shape_manager (init ⟨[]⟩ [31, 32]) 7
                  11).2.display_cursor_shape_manager_map
                ((fun _ => (⟨"wl_pointer", 7⟩ : wl_proxy)) 5).display) 5] ∧
    g_hash_table_lookup
        (get_cursor_shape_device_series (fun _ => ⟨"wl_pointer", 7⟩) 5
          (register_display_shape_manager (init ⟨[]⟩ [31, 32]) 7 11).2
          (false :: [false, true])).2.object_cursor_shape_device_map 5
      = (register_display_shape_manager (init ⟨[]⟩ [31, 32]) 7 11).2.fresh.headD 0 ∧
    (∀ dev, WireEvent.destroy dev ∉
        (get_cursor_shape_device_series (fun _ => ⟨"wl_pointer", 7⟩) 5
          (register_display_shape_manager (init ⟨[]⟩ [31, 32]) 7 11).2
          (false :: [false, true])).2.wire
        ∨ WireEvent.destroy dev ∈
          (register_display_shape_manager (init ⟨[]⟩ [31, 32]) 7 11).2.wire) :=
  shape_device_created_once (fun _ => ⟨"wl_pointer", 7⟩)
    (register_display_shape_manager (init ⟨[]⟩ [31, 32]) 7 11).2 5 false [false, true]
    (by decide) (by decide) (by decide)

/-! ## Single calls of the hook -/

theorem lookup_buffer_shape_frame (w w1 : World) (b s : Nat)
    (hl : lookup_buffer_shape w b = some (s, w1)) :
    w1 = { w with buffer_shape_map := w1.buffer_shape_map } := by
  unfold lookup_buffer_shape at hl
  simp only at hl
  split at hl
  · unfold gdk_wayland_display_cursor_buffer_shape gtk_cursor_theme_buffer_shape at hl
    split at hl
    · simp at hl
    · split at hl <;> (simp at hl; rw [← hl.2])
  · simp at hl
    rw [← hl.2]

theorem replay_event_capture (tablet : Bool) (D v n S : Nat) (x y : Int) :
    replay_event (capture (set_cursor_request tablet D v n S x y) tablet)
      = (set_cursor_request tablet D v n S x y).forward := by
  cases tablet <;> rfl

theorem capture_set_cursor_request (tablet : Bool) (D v n S : Nat) (x y : Int) :
    capture (set_cursor_request tablet D v n S x y) tablet
      = { object := D, version := v, enter_serial := n, pointer_surface := S, x := x, y := y,
          tablet_tool := tablet } := by
  cases tablet <;> rfl

/-- A set_buffer_scale or damage request on the pending surface is dropped; the state is
kept. -/
theorem call_masked (h : Heap) (w : World) (d : deferred_set_cursor_data) (q : Request)
    (hS : d.pointer_surface ≠ 0) (hSc : (h d.pointer_surface).interface_name = "wl_surface")
    (hq : q.proxy = d.pointer_surface)
    (hop : q.opcode = WL_SURFACE_SET_BUFFER_SCALE ∨ q.opcode = WL_SURFACE_DAMAGE) :
    wl_proxy_marshal_array_flags h w d q = some (.NULL, w, d) := by
  rcases hop with hop | hop <;>
    simp [wl_proxy_marshal_array_flags, hq, hSc, hS, hop, WL_SURFACE_ATTACH,
      WL_SURFACE_SET_BUFFER_SCALE, WL_SURFACE_DAMAGE]

/-- A commit on the pending surface is dropped and the deferred data is zeroed. -/
theorem call_commit (h : Heap) (w : World) (d : deferred_set_cursor_data) (q : Request)
    (hS : d.pointer_surface ≠ 0) (hSc : (h d.pointer_surface).interface_name = "wl_surface")
    (hq : q.proxy = d.pointer_surface) (hop : q.opcode = WL_SURFACE_COMMIT) :
    wl_proxy_marshal_array_flags h w d q = some (.NULL, w, deferred_zero) := by
  simp [wl_proxy_marshal_array_flags, hq, hSc, hS, hop, WL_SURFACE_ATTACH,
    WL_SURFACE_SET_BUFFER_SCALE, WL_SURFACE_DAMAGE, WL_SURFACE_COMMIT]

/-- With nothing pending the stubs only forward: the function called from the hook is
`get_cursor_shape_device`. -/
theorem get_cursor_shape_device_from_hook_idle (h : Heap) (w : World)
    (d : deferred_set_cursor_data) (o : Nat) (k : Bool) (hidle : d.pointer_surface = 0) :
    get_cursor_shape_device_from_hook h w d o k
      = ((get_cursor_shape_device h w o k).1, (get_cursor_shape_device h w o k).2, d) := by
  by_cases hc : g_hash_table_lookup w.object_cursor_shape_device_map o = 0
  · by_cases hm : g_hash_table_lookup w.display_cursor_shape_manager_map (h o).display = 0
    · simp [get_cursor_shape_device_from_hook, get_cursor_shape_device, hc, hm]
    · by_cases hf : w.fresh.head?.getD 0 = 0
      · simp [get_cursor_shape_device_from_hook, get_cursor_shape_device,
          create_cursor_shape_device_from_hook, create_cursor_shape_device, reentrant_stub,
          flush, hidle, hc, hm, hf, World.emit]
      · simp [get_cursor_shape_device_from_hook, get_cursor_shape_device,
          create_cursor_shape_device_from_hook, create_cursor_shape_device, reentrant_stub,
          flush, hidle, hc, hm, hf, World.emit]
  · simp [get_cursor_shape_device_from_hook, get_cursor_shape_device, hc]

/-- An attach on the pending surface whose buffer has a shape: the device is obtained, then
the `set_shape` stub is called with the serial the deferred data holds at that moment; the
attach itself is dropped. -/
theorem call_attach_known (h : Heap) (w w1 : World) (d : deferred_set_cursor_data)
    (q : Request) (s : Nat)
    (hS : d.pointer_surface ≠ 0) (hSc : (h d.pointer_surface).interface_name = "wl_surface")
    (hq : q.proxy = d.pointer_surface) (hop : q.opcode = WL_SURFACE_ATTACH)
    (hl : lookup_buffer_shape w (q.arg 0).get_o = some (s, w1)) (hs : s ≠ 0) :
    wl_proxy_marshal_array_flags h w d q
      = (wp_cursor_shape_device_v1_set_shape
            (get_cursor_shape_device_from_hook h w1 d d.object d.tablet_tool).2.1
            (get_cursor_shape_device_from_hook h w1 d d.object d.tablet_tool).2.2
            (get_cursor_shape_device_from_hook h w1 d d.object d.tablet_tool).1
            (get_cursor_shape_device_from_hook h w1 d d.object d.tablet_tool).2.2.enter_serial
            s).map (fun p => (Ret.NULL, p.1, p.2)) := by
  simp only [wl_proxy_marshal_array_flags, hq, hSc, hS, hop, hl, hs, ne_eq, not_false_eq_true,
    and_self, if_true, if_false]
  cases wp_cursor_shape_device_v1_set_shape
      (get_cursor_shape_device_from_hook h w1 d d.object d.tablet_tool).2.1
      (get_cursor_shape_device_from_hook h w1 d d.object d.tablet_tool).2.2
      (get_cursor_shape_device_from_hook h w1 d d.object d.tablet_tool).1
      (get_cursor_shape_device_from_hook h w1 d d.object d.tablet_tool).2.2.enter_serial s with
  | none => rfl
  | some p => rfl

/-- The rewrite with the shape device of the pending object in the cache. -/
theorem rewrite_cached (h : Heap) (w1 : World) (d : deferred_set_cursor_data) (s : Nat)
    (hS : d.pointer_surface ≠ 0)
    (hc : g_hash_table_lookup w1.object_cursor_shape_device_map d.object ≠ 0) :
    wp_cursor_shape_device_v1_set_shape
        (get_cursor_shape_device_from_hook h w1 d d.object d.tablet_tool).2.1
        (get_cursor_shape_device_from_hook h w1 d d.object d.tablet_tool).2.2
        (get_cursor_shape_device_from_hook h w1 d d.object d.tablet_tool).1
        (get_cursor_shape_device_from_hook h w1 d d.object d.tablet_tool).2.2.enter_serial s
      = some ({ w1 with wire := w1.wire ++
                  [replay_event d,
                    WireEvent.set_shape
                      (g_hash_table_lookup w1.object_cursor_shape_device_map d.object)
                      d.enter_serial s] },
              deferred_zero) := by
  simp [get_cursor_shape_device_from_hook, wp_cursor_shape_device_v1_set_shape, hc,
    reentrant_stub, flush, hS, World.emit]

/-- The rewrite with no shape device in the cache, a manager registered and the creation
call answering a device. -/
theorem rewrite_created (h : Heap) (w1 : World) (d : deferred_set_cursor_data) (s : Nat)
    (hS : d.pointer_surface ≠ 0)
    (hc : g_hash_table_lookup w1.object_cursor_shape_device_map d.object = 0)
    (hM : g_hash_table_lookup w1.display_cursor_shape_manager_map (h d.object).display ≠ 0)
    (hf : w1.fresh.headD 0 ≠ 0) :
    wp_cursor_shape_device_v1_set_shape
        (get_cursor_shape_device_from_hook h w1 d d.object d.tablet_tool).2.1
        (get_cursor_shape_device_from_hook h w1 d d.object d.tablet_tool).2.2
        (get_cursor_shape_device_from_hook h w1 d d.object d.tablet_tool).1
        (get_cursor_shape_device_from_hook h w1 d d.object d.tablet_tool).2.2.enter_serial s
      = some ({ w1 with
                object_cursor_shape_device_map :=
                  (g_hash_table_insert w1.object_cursor_shape_device_map d.object
                    (w1.fresh.headD 0)),
                wire := w1.wire ++
                  [replay_event d,
                    creation_event d.tablet_tool
                      (g_hash_table_lookup w1.display_cursor_shape_manager_map
                        (h d.object).display) d.object,
                    WireEvent.set_shape (w1.fresh.headD 0) deferred_zero.enter_serial s],
                fresh := w1.fresh.tail },
              deferred_zero) := by
  have hf2 := hf
  simp only [List.headD_eq_head?_getD] at hf2
  cases hk : d.tablet_tool <;>
    simp [get_cursor_shape_device_from_hook, create_cursor_shape_device_from_hook,
      wp_cursor_shape_device_v1_set_shape, hc, hM, hf2, reentrant_stub, flush, hS, World.emit,
      creation_event, deferred_zero]

/-- An attach on the pending surface whose buffer has no shape: the captured set_cursor is
replayed, then the attach is forwarded. -/
theorem call_attach_unknown (h : Heap) (w w1 : World) (d : deferred_set_cursor_data)
    (q : Request)
    (hS : d.pointer_surface ≠ 0) (hSc : (h d.pointer_surface).interface_name = "wl_surface")
    (hq : q.proxy = d.pointer_surface) (hop : q.opcode = WL_SURFACE_ATTACH)
    (hl : lookup_buffer_shape w (q.arg 0).get_o = some (0, w1)) :
    wl_proxy_marshal_array_flags h w d q
      = some (.next_result, (w1.emit (replay_event d)).emit q.forward, deferred_zero) := by
  simp [wl_proxy_marshal_array_flags, marshal_tail, hq, hSc, hS, hop, hl]

theorem run_append (h : Heap) (w : World) (d : deferred_set_cursor_data)
    (l1 l2 : List Request) :
    run h w d (l1 ++ l2) = (run h w d l1).bind (fun p => run h p.1 p.2 l2) := by
  induction l1 generalizing w d with
  | nil => simp [run]
  | cons r rs ih =>
    simp only [List.cons_append, run]
    cases hr : wl_proxy_marshal_array_flags h w d r with
    | none => simp
    | some res =>
      obtain ⟨ret, w1, d1⟩ := res
      simp [ih]

theorem run_masked (h : Heap) (w : World) (d : deferred_set_cursor_data) (mid : List Request)
    (hS : d.pointer_surface ≠ 0) (hSc : (h d.pointer_surface).interface_name = "wl_surface")
    (hmid : ∀ q ∈ mid, q.proxy = d.pointer_surface ∧
      (q.opcode = WL_SURFACE_SET_BUFFER_SCALE ∨ q.opcode = WL_SURFACE_DAMAGE)) :
    run h w d mid = some (w, d) := by
  induction mid with
  | nil => rfl
  | cons q qs ih =>
    have hq := hmid q (List.mem_cons_self _ _)
    simp only [run, call_masked h w d q hS hSc hq.1 hq.2]
    exact ih (fun q2 hq2 => hmid q2 (List.mem_cons_of_mem _ hq2))

/-- C3 (as stated, refuted), on pointer 5 and surface 9 from the initial IDLE state with an
empty wire. (1) set-cursor on surface 9 followed by commit(9): nothing is ever sent and the
thread is back in IDLE. (2) set-cursor with the null surface followed by two other
requests: only those two are sent, the cursor-set is neither replayed nor rewritten.
(3) set-cursor on surface 9 followed by damage(9): nothing has been sent when the damage
call returns. -/
theorem captured_set_cursor_can_be_lost :
    demo_world.wire = [] ∧
    run demo_heap demo_world deferred_zero
        [set_cursor_request false 5 1 42 9 3 4, commit_request 9]
      = some (demo_world, deferred_zero) ∧
    (run demo_heap demo_world deferred_zero
        [set_cursor_request false 5 1 42 0 0 0, other_request, commit_request 9]).map
          (fun p => p.1.wire)
      = some [other_request.forward, (commit_request 9).forward] ∧
    run demo_heap demo_world deferred_zero
        [set_cursor_request false 5 1 42 9 3 4, damage_request 9 0 0 32 32]
      = some (demo_world, capture (set_cursor_request false 5 1 42 9 3 4) false) := by
  decide

theorem marshal_tail_pending (h : Heap) (w : World) (d : deferred_set_cursor_data)
    (q : Request) (hS : d.pointer_surface ≠ 0) :
    (marshal_tail h w d q).2.1.wire = w.wire ++ [replay_event d, q.forward] ∨
    (marshal_tail h w d q).2.1.wire = w.wire ++ [replay_event d] := by
  unfold marshal_tail
  simp only [hS, ne_eq, not_false_eq_true, if_true]
  split
  · right; simp [World.emit]
  · split
    · right; simp [World.emit]
    · left; simp [World.emit]

theorem marshal_tail_pending_state (h : Heap) (w : World) (d : deferred_set_cursor_data)
    (q : Request) (hS : d.pointer_surface ≠ 0) :
    (marshal_tail h w d q).2.2 = deferred_zero ∨ (marshal_tail h w d q).2.2 = capture q false ∨
      (marshal_tail h w d q).2.2 = capture q true := by
  unfold marshal_tail
  simp only [hS, ne_eq, not_false_eq_true, if_true]
  split
  · right; left; rfl
  · split
    · right; right; rfl
    · left; rfl

theorem flush_frame (w : World) (d : deferred_set_cursor_data) :
    (flush w d).1 = { w with wire := (flush w d).1.wire } := by
  unfold flush
  split <;> rfl

/-- A cursor-set request is captured from any state, after the flush of what was pending. -/
theorem call_capture (h : Heap) (w : World) (d : deferred_set_cursor_data) (tablet : Bool)
    (D v n S : Nat) (x y : Int)
    (hD : (h D).interface_name = device_class tablet) :
    wl_proxy_marshal_array_flags h w d (set_cursor_request tablet D v n S x y)
      = some (.NULL, (flush w d).1, capture (set_cursor_request tablet D v n S x y) tablet) := by
  by_cases hp : d.pointer_surface = 0 <;> cases tablet <;>
    simp [wl_proxy_marshal_array_flags, marshal_tail, flush, set_cursor_request, hp, hD,
      device_class, WL_POINTER_SET_CURSOR, ZWP_TABLET_TOOL_V2_SET_CURSOR]

/-- C3 (amended): a legacy cursor-set request r (pointer or tablet-tool variant) with a
non-null surface S is captured, from any state; the next request q is not a
set_buffer_scale, damage or commit on S and, when it is an attach on S, its rewrite runs to
its end (the buffer lookup does not fail and, for a nonzero shape, a non-null shape device
is obtained). Then the call for q returns, r is no longer held, and r has been consumed:
either the real implementation has received the replay of r before anything issued for q,
or q is an attach on S of a buffer of nonzero shape `s` and a shape-set request for `s` has
been issued on a non-null shape device, carrying the enter serial of r when the device of
D was cached before. -/
theorem captured_set_cursor_consumed (h : Heap) (w : World) (d0 : deferred_set_cursor_data)
    (tablet : Bool) (D v n S : Nat) (x y : Int) (q : Request)
    (hD : (h D).interface_name = device_class tablet)
    (hS : S ≠ 0) (hq : ¬ masked_on h S q)
    (hok : q.proxy = S → (h S).interface_name = "wl_surface" →
      q.opcode = WL_SURFACE_ATTACH →
      rewrite_completes h (flush w d0).1 (capture (set_cursor_request tablet D v n S x y) tablet)
        q) :
    ∃ wf df evs,
      run h w d0 [set_cursor_request tablet D v n S x y, q] = some (wf, df) ∧
      wf.wire = (flush w d0).1.wire ++ evs ∧
      (df = deferred_zero ∨ df = capture q false ∨ df = capture q true) ∧
      ((∃ post, evs = (set_cursor_request tablet D v n S x y).forward :: post) ∨
       ∃ dev serial s, dev ≠ 0 ∧ s ≠ 0 ∧ q.proxy = S ∧ q.opcode = WL_SURFACE_ATTACH ∧
         (lookup_buffer_shape (flush w d0).1 (q.arg 0).get_o).map Prod.fst = some s ∧
         WireEvent.set_shape dev serial s ∈ evs ∧
         (g_hash_table_lookup w.object_cursor_shape_device_map D ≠ 0 → serial = n)) := by
  have hcap := capture_set_cursor_request tablet D v n S x y
  have hrep := replay_event_capture tablet D v n S x y
  have hfr := flush_frame w d0
  generalize hW : (flush w d0).1 = W at hok hfr
  have eW1 : W.object_cursor_shape_device_map = w.object_cursor_shape_device_map := by
    rw [hfr]
  simp only [run, call_capture h w d0 tablet D v n S x y hD, hW]
  generalize hd : capture (set_cursor_request tablet D v n S x y) tablet = d at hrep hok
  have hpS : d.pointer_surface = S := by rw [← hd, hcap]
  have hpO : d.object = D := by rw [← hd, hcap]
  have hpN : d.enter_serial = n := by rw [← hd, hcap]
  have hSd : d.pointer_surface ≠ 0 := by rw [hpS]; exact hS
  -- a call that falls through to the flush
  have htail : wl_proxy_marshal_array_flags h W d q = some (marshal_tail h W d q) →
      ∃ wf df evs,
        (match wl_proxy_marshal_array_flags h W d q with
          | none => none
          | some (_, w1, d1) => some (w1, d1)) = some (wf, df) ∧
        wf.wire = W.wire ++ evs ∧
        (df = deferred_zero ∨ df = capture q false ∨ df = capture q true) ∧
        ((∃ post, evs = (set_cursor_request tablet D v n S x y).forward :: post) ∨
         ∃ dev serial s, dev ≠ 0 ∧ s ≠ 0 ∧ q.proxy = S ∧ q.opcode = WL_SURFACE_ATTACH ∧
           (lookup_buffer_shape W (q.arg 0).get_o).map Prod.fst = some s ∧
           WireEvent.set_shape dev serial s ∈ evs ∧
           (g_hash_table_lookup w.object_cursor_shape_device_map D ≠ 0 → serial = n)) := by
    intro hc
    rw [hc]
    rcases marshal_tail_pending h W d q hSd with hh | hh
    · exact ⟨_, _, [replay_event d, q.forward], rfl, hh, marshal_tail_pending_state h W d q hSd,
        Or.inl ⟨[q.forward], by rw [hrep]⟩⟩
    · exact ⟨_, _, [replay_event d], rfl, hh, marshal_tail_pending_state h W d q hSd,
        Or.inl ⟨[], by rw [hrep]⟩⟩
  by_cases hon : q.proxy = S ∧ (h S).interface_name = "wl_surface"
  · obtain ⟨hqp, hSc⟩ := hon
    have hSc2 : (h d.pointer_surface).interface_name = "wl_surface" := by rw [hpS]; exact hSc
    have hqp2 : q.proxy = d.pointer_surface := by rw [hpS]; exact hqp
    by_cases hop : q.opcode = WL_SURFACE_ATTACH
    · have hcomp := hok hqp hSc hop
      unfold rewrite_completes at hcomp
      cases hlk : lookup_buffer_shape W (q.arg 0).get_o with
      | none => rw [hlk] at hcomp; exact absurd hcomp (by simp)
      | some res =>
        obtain ⟨s, w1⟩ := res
        rw [hlk] at hcomp
        simp only at hcomp
        have hw1 := lookup_buffer_shape_frame W w1 _ s hlk
        have e1 : w1.object_cursor_shape_device_map = W.object_cursor_shape_device_map := by
          rw [hw1]
        have e4 : w1.wire = W.wire := by rw [hw1]
        by_cases hs : s = 0
        · subst hs
          rw [call_attach_unknown h W w1 d q hSd hSc2 hqp2 hop hlk]
          refine ⟨_, _, [replay_event d, q.forward], rfl, ?_, Or.inl rfl,
            Or.inl ⟨[q.forward], by rw [hrep]⟩⟩
          simp [World.emit, e4]
        · have hdev := hcomp.resolve_left hs
          rw [call_attach_known h W w1 d q s hSd hSc2 hqp2 hop hlk hs]
          by_cases hc : g_hash_table_lookup w1.object_cursor_shape_device_map d.object = 0
          · -- the device is created: the manager and the created device are not NULL
            have hM : g_hash_table_lookup w1.display_cursor_shape_manager_map
                (h d.object).display ≠ 0 := by
              intro hM0
              apply hdev
              simp [get_cursor_shape_device_from_hook, hc, hM0]
            have hf : w1.fresh.headD 0 ≠ 0 := by
              intro hf0
              apply hdev
              have hf1 := hf0
              simp only [List.headD_eq_head?_getD] at hf1
              simp [get_cursor_shape_device_from_hook, create_cursor_shape_device_from_hook,
                hc, hM, hf1]
            rw [rewrite_created h w1 d s hSd hc hM hf]
            refine ⟨_, _,
              [replay_event d,
                creation_event d.tablet_tool
                  (g_hash_table_lookup w1.display_cursor_shape_manager_map
                    (h d.object).display) d.object,
                WireEvent.set_shape (w1.fresh.headD 0) deferred_zero.enter_serial s],
              rfl, ?_, Or.inl rfl,
              Or.inr ⟨w1.fresh.headD 0, deferred_zero.enter_serial, s, hf, hs, hqp, hop, rfl,
                ?_, ?_⟩⟩
            · simp [e4]
            · simp
            · intro hne
              rw [hpO, e1, eW1] at hc
              exact absurd hc hne
          · rw [rewrite_cached h w1 d s hSd hc]
            refine ⟨_, _,
              [replay_event d,
                WireEvent.set_shape
                  (g_hash_table_lookup w1.object_cursor_shape_device_map d.object)
                  d.enter_serial s],
              rfl, ?_, Or.inl rfl,
              Or.inr ⟨g_hash_table_lookup w1.object_cursor_shape_device_map d.object,
                d.enter_serial, s, hc, hs, hqp, hop, rfl, ?_, ?_⟩⟩
            · simp [e4]
            · simp
            · intro _; exact hpN
    · have hnm : ¬ (q.opcode = WL_SURFACE_SET_BUFFER_SCALE ∨ q.opcode = WL_SURFACE_DAMAGE ∨
          q.opcode = WL_SURFACE_COMMIT) := fun hh => hq ⟨hqp, hSc, hh⟩
      have hc : wl_proxy_marshal_array_flags h W d q = some (marshal_tail h W d q) := by
        simp only [not_or] at hnm
        simp [wl_proxy_marshal_array_flags, hop, hnm.1, hnm.2.1, hnm.2.2]
      exact htail hc
  · have hc : wl_proxy_marshal_array_flags h W d q = some (marshal_tail h W d q) := by
      have hcond : ¬ ((h q.proxy).interface_name = "wl_surface" ∧
          q.proxy ≠ 0 ∧ q.proxy = d.pointer_surface) := by
        rintro ⟨hc1, _, hc3⟩
        rw [hpS] at hc3
        exact hon ⟨hc3, by rw [← hc3]; exact hc1⟩
      simp only [wl_proxy_marshal_array_flags]
      rw [if_neg hcond]
    exact htail hc

/-- C3 (amended) with another cursor-set still pending when r arrives and q an attach of
buffer 100 (shape 4) on the surface of r. -/
theorem captured_set_cursor_consumed_witness :
    ∃ wf df evs,
      run demo_heap demo_world (capture (set_cursor_request true 6 2 41 9 0 0) true)
          [set_cursor_request false 5 1 42 9 3 4, attach_request 9 100 0 0] = some (wf, df) ∧
      wf.wire = (flush demo_world (capture (set_cursor_request true 6 2 41 9 0 0) true)).1.wire
        ++ evs ∧
      (df = deferred_zero ∨ df = capture (attach_request 9 100 0 0) false ∨
        df = capture (attach_request 9 100 0 0) true) ∧
      ((∃ post, evs = (set_cursor_request false 5 1 42 9 3 4).forward :: post) ∨
       ∃ dev serial s, dev ≠ 0 ∧ s ≠ 0 ∧ (attach_request 9 100 0 0).proxy = 9 ∧
         (attach_request 9 100 0 0).opcode = WL_SURFACE_ATTACH ∧
         (lookup_buffer_shape
            (flush demo_world (capture (set_cursor_request true 6 2 41 9 0 0) true)).1
            ((attach_request 9 100 0 0).arg 0).get_o).map Prod.fst = some s ∧
         WireEvent.set_shape dev serial s ∈ evs ∧
         (g_hash_table_lookup demo_world.object_cursor_shape_device_map 5 ≠ 0 →
           serial = 42)) :=
  captured_set_cursor_consumed demo_heap demo_world
    (capture (set_cursor_request true 6 2 41 9 0 0) true) false 5 1 42 9 3 4
    (attach_request 9 100 0 0) (by decide) (by decide) (by decide)
    (fun _ _ _ => by decide)

/-- C4 (the code at the failing inputs): with a buffer of known shape 4 attached to the
pending surface, (1) on a display without a registered manager `get_cursor_shape_device`
returns `NULL` without sending anything and line 396 calls the `set_shape` stub on that
`NULL` device, which dereferences it: the call fails, with no replay of the captured
set-cursor and no forwarded attach; (2) with a manager registered but the creation call
answering `NULL`, the same stub call on `NULL` fails. -/
theorem null_shape_device_is_used :
    g_hash_table_lookup demo_world_no_manager.display_cursor_shape_manager_map
        (demo_heap 5).display = 0 ∧
    (lookup_buffer_shape demo_world_no_manager 100).map Prod.fst = some 4 ∧
    get_cursor_shape_device_from_hook demo_heap demo_world_no_manager
        (capture (set_cursor_request false 5 1 42 9 3 4) false) 5 false
      = (0, demo_world_no_manager, capture (set_cursor_request false 5 1 42 9 3 4) false) ∧
    wp_cursor_shape_device_v1_set_shape demo_world_no_manager
        (capture (set_cursor_request false 5 1 42 9 3 4) false) 0 42 4 = none ∧
    run demo_heap demo_world_no_manager deferred_zero
        [set_cursor_request false 5 1 42 9 3 4, attach_request 9 100 0 0] = none ∧
    (get_cursor_shape_device_from_hook demo_heap { demo_world with fresh := [] }
        (capture (set_cursor_request false 5 1 42 9 3 4) false) 5 false).1 = 0 ∧
    run demo_heap { demo_world with fresh := [] } deferred_zero
        [set_cursor_request false 5 1 42 9 3 4, attach_request 9 100 0 0] = none := by
  decide

/-- C10 (the code at the failing inputs): set-cursor(5, serial 42, surface 9) followed by an
attach of buffer 100 (shape 4). The rewrite issues its requests through stubs that enter
the hook again while the cursor-set is still pending, so the legacy set-cursor is replayed
to the real implementation during the attach call itself, ahead of the shape-set request:
(1) with the device of the pointer cached, the wire after the attach is the replay and
`set_shape(31, 42, 4)`; (2) with the device to be created, it is the replay, the creation
request and `set_shape(31, 0, 4)`; (3) whatever follows (a request on another object,
another cursor-set, a commit on the surface) finds both already sent. -/
theorem rewritten_set_cursor_is_also_replayed :
    (run demo_heap demo_world_device deferred_zero
        [set_cursor_request false 5 1 42 9 3 4, attach_request 9 100 0 0]).map
          (fun p => p.1.wire)
      = some [WireEvent.marshal 5 WL_POINTER_SET_CURSOR 0 1 0 [.u 42, .o 9, .i 3, .i 4],
          WireEvent.set_shape 31 42 4] ∧
    (run demo_heap demo_world deferred_zero
        [set_cursor_request false 5 1 42 9 3 4, attach_request 9 100 0 0]).map
          (fun p => p.1.wire)
      = some [WireEvent.marshal 5 WL_POINTER_SET_CURSOR 0 1 0 [.u 42, .o 9, .i 3, .i 4],
          WireEvent.get_pointer 11 5, WireEvent.set_shape 31 0 4] ∧
    (run demo_heap demo_world_device deferred_zero
        [set_cursor_request false 5 1 42 9 3 4, attach_request 9 100 0 0,
          other_request]).map (fun p => p.1.wire)
      = some [WireEvent.marshal 5 WL_POINTER_SET_CURSOR 0 1 0 [.u 42, .o 9, .i 3, .i 4],
          WireEvent.set_shape 31 42 4, other_request.forward] ∧
    (run demo_heap demo_world_device deferred_zero
        [set_cursor_request false 5 1 42 9 3 4, attach_request 9 100 0 0,
          set_cursor_request false 5 1 43 9 3 4]).map (fun p => p.1.wire)
      = some [WireEvent.marshal 5 WL_POINTER_SET_CURSOR 0 1 0 [.u 42, .o 9, .i 3, .i 4],
          WireEvent.set_shape 31 42 4] ∧
    (run demo_heap demo_world_device deferred_zero
        [set_cursor_request false 5 1 42 9 3 4, attach_request 9 100 0 0,
          commit_request 9]).map (fun p => p.1.wire)
      = some [WireEvent.marshal 5 WL_POINTER_SET_CURSOR 0 1 0 [.u 42, .o 9, .i 3, .i 4],
          WireEvent.set_shape 31 42 4, (commit_request 9).forward] := by
  decide

/-! ## The race in `get_cursor_shape_device` -/

/-- Run alone, the step machine is the function `get_cursor_shape_device`. -/
theorem gcsd_iterate_alone (h : Heap) (w : World) (o : Nat) (k : Bool) :
    gcsd_iterate h o k 4 (w, .start)
      = ((get_cursor_shape_device h w o k).2,
          .returned (get_cursor_shape_device h w o k).1) := by
  by_cases hc : g_hash_table_lookup w.object_cursor_shape_device_map o = 0
  · by_cases hm : g_hash_table_lookup w.display_cursor_shape_manager_map (h o).display = 0
    · simp [gcsd_iterate, gcsd_step, get_cursor_shape_device, hc, hm]
    · by_cases hf : w.fresh.head?.getD 0 = 0
      · simp [gcsd_iterate, gcsd_step, get_cursor_shape_device, create_cursor_shape_device,
          hc, hm, hf]
      · simp [gcsd_iterate, gcsd_step, get_cursor_shape_device, create_cursor_shape_device,
          hc, hm, hf, World.emit]
  · simp [gcsd_iterate, gcsd_step, get_cursor_shape_device, hc]

theorem race_world_start (w : World) (o : Nat) :
    race_world w o 0 [] w.fresh = w := by
  simp [race_world]

theorem race_world_final (w : World) (o win : Nat) (evs : List WireEvent) (fr : List Nat)
    (hwin : win ≠ 0) :
    race_world w o win evs fr
      = { w with
          object_cursor_shape_device_map :=
            (g_hash_table_insert w.object_cursor_shape_device_map o win),
          wire := w.wire ++ evs, fresh := fr } := by
  simp [race_world, hwin]

theorem step_start (h : Heap) (w : World) (o : Nat) (k : Bool) (evs : List WireEvent)
    (fr : List Nat) (hfree : g_hash_table_lookup w.object_cursor_shape_device_map o = 0) :
    gcsd_step h o k (race_world w o 0 evs fr) .start
      = (race_world w o 0 evs fr,
          .unlocked (g_hash_table_lookup w.display_cursor_shape_manager_map (h o).display)) := by
  simp [gcsd_step, race_world, hfree]

theorem step_create (h : Heap) (w : World) (o : Nat) (k : Bool) (M win x : Nat)
    (evs : List WireEvent) (fr : List Nat) (hM : M ≠ 0) (hx : x ≠ 0) :
    gcsd_step h o k (race_world w o win evs (x :: fr)) (.unlocked M)
      = (race_world w o win (evs ++ [creation_event k M o]) fr, .created x) := by
  cases k <;> simp [gcsd_step, race_world, create_cursor_shape_device, creation_event, hM, hx]

theorem step_insert (h : Heap) (w : World) (o : Nat) (k : Bool) (a : Nat)
    (evs : List WireEvent) (fr : List Nat)
    (hfree : g_hash_table_lookup w.object_cursor_shape_device_map o = 0) (ha : a ≠ 0) :
    gcsd_step h o k (race_world w o 0 evs fr) (.created a)
      = (race_world w o a evs fr, .returned a) := by
  simp [gcsd_step, race_world, hfree, ha]

theorem step_lose (h : Heap) (w : World) (o : Nat) (k : Bool) (a win : Nat)
    (evs : List WireEvent) (fr : List Nat) (hwin : win ≠ 0) :
    gcsd_step h o k (race_world w o win evs fr) (.created a)
      = (race_world w o win evs fr, .destroying a win) := by
  simp [gcsd_step, race_world, hwin, lookup_insert_self]

theorem step_destroy (h : Heap) (w : World) (o : Nat) (k : Bool) (a b win : Nat)
    (evs : List WireEvent) (fr : List Nat) :
    gcsd_step h o k (race_world w o win evs fr) (.destroying a b)
      = (race_world w o win (evs ++ [.destroy a]) fr, .returned b) := by
  simp [gcsd_step, race_world, World.emit]

theorem step_returned (h : Heap) (o : Nat) (k : Bool) (w : World) (r : Nat) :
    gcsd_step h o k w (.returned r) = (w, .returned r) := rfl

theorem step_remaining (h : Heap) (o : Nat) (k : Bool) (w : World) (pc : gcsd_pc) :
    (gcsd_step h o k w pc).2.remaining ≤ pc.remaining - 1 := by
  cases pc <;> simp only [gcsd_step] <;> (try split) <;> (try split) <;>
    simp [gcsd_pc.remaining]

theorem race_run_remaining (h : Heap) (o : Nat) (k1 k2 : Bool) (st : Race)
    (sched : List Bool) :
    (race_run h o k1 k2 st sched).pc1.remaining ≤ st.pc1.remaining - sched.count false ∧
    (race_run h o k1 k2 st sched).pc2.remaining ≤ st.pc2.remaining - sched.count true := by
  induction sched generalizing st with
  | nil => simp [race_run]
  | cons t ts ih =>
    have ih2 := ih (race_step h o k1 k2 st t)
    have e : race_run h o k1 k2 st (t :: ts)
        = race_run h o k1 k2 (race_step h o k1 k2 st t) ts := rfl
    rw [e]
    cases t
    · have hs := step_remaining h o k1 st.w st.pc1
      have c1 : List.count false (false :: ts) = List.count false ts + 1 := by simp
      have c2 : List.count true (false :: ts) = List.count true ts := by simp
      simp only [race_step, Bool.false_eq_true, if_false] at ih2 hs ⊢
      rw [c1, c2]
      omega
    · have hs := step_remaining h o k2 st.w st.pc2
      have c1 : List.count false (true :: ts) = List.count false ts := by simp
      have c2 : List.count true (true :: ts) = List.count true ts + 1 := by simp
      simp only [race_step, if_true] at ih2 hs ⊢
      rw [c1, c2]
      omega

theorem pre_inv_step (h : Heap) (w : World) (o d1 d2 : Nat) (rest : List Nat) (k1 k2 : Bool)
    (hfree : g_hash_table_lookup w.object_cursor_shape_device_map o = 0)
    (hM : g_hash_table_lookup w.display_cursor_shape_manager_map (h o).display ≠ 0)
    (h1 : d1 ≠ 0) (h2 : d2 ≠ 0) (st : Race) (t : Bool)
    (hinv : PreInv w o (g_hash_table_lookup w.display_cursor_shape_manager_map (h o).display)
      d1 d2 rest
      (creation_event k1 (g_hash_table_lookup w.display_cursor_shape_manager_map
        (h o).display) o)
      (creation_event k2 (g_hash_table_lookup w.display_cursor_shape_manager_map
        (h o).display) o) st) :
    PreInv w o (g_hash_table_lookup w.display_cursor_shape_manager_map (h o).display)
      d1 d2 rest
      (creation_event k1 (g_hash_table_lookup w.display_cursor_shape_manager_map
        (h o).display) o)
      (creation_event k2 (g_hash_table_lookup w.display_cursor_shape_manager_map
        (h o).display) o) (race_step h o k1 k2 st t) := by
  cases hinv with
  | gone st hg =>
    apply PreInv.gone
    cases t
    · have hs := step_remaining h o k1 st.w st.pc1
      simp only [race_step, Bool.false_eq_true, if_false]
      omega
    · have hs := step_remaining h o k2 st.w st.pc2
      simp only [race_step, if_true]
      omega
  | _ =>
    cases t <;>
      simp only [race_step, Bool.false_eq_true, if_false, if_true,
        step_start h w o _ _ _ hfree, step_create h w o _ _ _ _ _ _ hM h1,
        step_create h w o _ _ _ _ _ _ hM h2, List.nil_append, List.cons_append] <;>
      constructor <;>
      simp [step_insert h w o _ _ _ _ hfree h1, step_insert h w o _ _ _ _ hfree h2,
        gcsd_pc.remaining]

theorem pre_inv_run (h : Heap) (w : World) (o d1 d2 : Nat) (rest : List Nat) (k1 k2 : Bool)
    (hfree : g_hash_table_lookup w.object_cursor_shape_device_map o = 0)
    (hM : g_hash_table_lookup w.display_cursor_shape_manager_map (h o).display ≠ 0)
    (h1 : d1 ≠ 0) (h2 : d2 ≠ 0) (sched : List Bool) (st : Race)
    (hinv : PreInv w o (g_hash_table_lookup w.display_cursor_shape_manager_map (h o).display)
      d1 d2 rest
      (creation_event k1 (g_hash_table_lookup w.display_cursor_shape_manager_map
        (h o).display) o)
      (creation_event k2 (g_hash_table_lookup w.display_cursor_shape_manager_map
        (h o).display) o) st) :
    PreInv w o (g_hash_table_lookup w.display_cursor_shape_manager_map (h o).display)
      d1 d2 rest
      (creation_event k1 (g_hash_table_lookup w.display_cursor_shape_manager_map
        (h o).display) o)
      (creation_event k2 (g_hash_table_lookup w.display_cursor_shape_manager_map
        (h o).display) o) (race_run h o k1 k2 st sched) := by
  induction sched generalizing st with
  | nil => exact hinv
  | cons t ts ih => exact ih _ (pre_inv_step h w o d1 d2 rest k1 k2 hfree hM h1 h2 st t hinv)

theorem race_inv_of_pre (w : World) (o M d1 d2 : Nat) (rest : List Nat) (e1 e2 : WireEvent)
    (st : Race) (hinv : PreInv w o M d1 d2 rest e1 e2 st)
    (hf1 : st.pc1.in_flight = true) (hf2 : st.pc2.in_flight = true) :
    RaceInv w o M d1 d2 rest e1 e2 st := by
  cases hinv with
  | gone st hg =>
    exfalso
    obtain ⟨w0, pc1, pc2⟩ := st
    cases pc1 <;> cases pc2 <;> simp_all [gcsd_pc.in_flight, gcsd_pc.remaining]
  | uu => exact RaceInv.uu
  | cu => exact RaceInv.cu
  | uc => exact RaceInv.uc
  | cc12 => exact RaceInv.cc12
  | cc21 => exact RaceInv.cc21
  | _ => simp [gcsd_pc.in_flight] at hf1 hf2

theorem race_inv_step (h : Heap) (w : World) (o M d1 d2 : Nat) (rest : List Nat)
    (k1 k2 : Bool)
    (hfree : g_hash_table_lookup w.object_cursor_shape_device_map o = 0)
    (hM : M ≠ 0) (h1 : d1 ≠ 0) (h2 : d2 ≠ 0) (st : Race) (t : Bool)
    (hinv : RaceInv w o M d1 d2 rest (creation_event k1 M o) (creation_event k2 M o) st) :
    RaceInv w o M d1 d2 rest (creation_event k1 M o) (creation_event k2 M o)
      (race_step h o k1 k2 st t) := by
  cases hinv <;> cases t <;>
    simp only [race_step, Bool.false_eq_true, if_false, if_true,
      step_create h w o _ _ _ _ _ _ hM h1, step_create h w o _ _ _ _ _ _ hM h2,
      step_insert h w o _ _ _ _ hfree h1, step_insert h w o _ _ _ _ hfree h2,
      step_lose h w o _ _ _ _ _ h1, step_lose h w o _ _ _ _ _ h2,
      step_destroy, step_returned, List.nil_append, List.cons_append] <;>
    constructor

theorem race_inv_run (h : Heap) (w : World) (o M d1 d2 : Nat) (rest : List Nat)
    (k1 k2 : Bool)
    (hfree : g_hash_table_lookup w.object_cursor_shape_device_map o = 0)
    (hM : M ≠ 0) (h1 : d1 ≠ 0) (h2 : d2 ≠ 0) (sched : List Bool) (st : Race)
    (hinv : RaceInv w o M d1 d2 rest (creation_event k1 M o) (creation_event k2 M o) st) :
    RaceInv w o M d1 d2 rest (creation_event k1 M o) (creation_event k2 M o)
      (race_run h o k1 k2 st sched) := by
  induction sched generalizing st with
  | nil => exact hinv
  | cons t ts ih => exact ih _ (race_inv_step h w o M d1 d2 rest k1 k2 hfree hM h1 h2 st t hinv)

theorem in_flight_remaining (pc : gcsd_pc) (hf : pc.in_flight = true) : pc.remaining ≤ 3 := by
  cases pc <;> simp_all [gcsd_pc.in_flight, gcsd_pc.remaining]

/-- C9: two threads call `get_cursor_shape_device` for the same object `o`, uncached, on a
display with a registered manager; the library answers the two creation requests with the
distinct non-null devices `d1` and `d2`. For every schedule `pre ++ post` of their atomic
steps such that after `pre` both threads have passed the first cache check and neither
has entered the second locked section, and `post` lets each thread finish (three steps
each are enough): both calls return the same device `win`, one of `d1`, `d2`; the cache
maps `o` to `win`; the other device `lose` is the only one destroyed; and the whole
traffic is the two creation requests followed by that one destroy. -/
theorem single_winner_race (h : Heap) (w : World) (o : Nat) (k1 k2 : Bool) (d1 d2 : Nat)
    (rest : List Nat) (pre post : List Bool)
    (hfree : g_hash_table_lookup w.object_cursor_shape_device_map o = 0)
    (hM : g_hash_table_lookup w.display_cursor_shape_manager_map (h o).display ≠ 0)
    (hfresh : w.fresh = d1 :: d2 :: rest) (h1 : d1 ≠ 0) (h2 : d2 ≠ 0) (h12 : d1 ≠ d2)
    (hrace1 : (race_run h o k1 k2 ⟨w, .start, .start⟩ pre).pc1.in_flight = true)
    (hrace2 : (race_run h o k1 k2 ⟨w, .start, .start⟩ pre).pc2.in_flight = true)
    (hfair1 : 3 ≤ post.count false) (hfair2 : 3 ≤ post.count true) :
    ∃ win lose ka kb,
      ((win = d1 ∧ lose = d2) ∨ (win = d2 ∧ lose = d1)) ∧ win ≠ lose ∧
      ((ka = k1 ∧ kb = k2) ∨ (ka = k2 ∧ kb = k1)) ∧
      race_run h o k1 k2 ⟨w, .start, .start⟩ (pre ++ post)
        = ⟨{ w with
              object_cursor_shape_device_map :=
                (g_hash_table_insert w.object_cursor_shape_device_map o win),
              wire := w.wire ++
                [creation_event ka
                    (g_hash_table_lookup w.display_cursor_shape_manager_map (h o).display) o,
                  creation_event kb
                    (g_hash_table_lookup w.display_cursor_shape_manager_map (h o).display) o,
                  WireEvent.destroy lose],
              fresh := rest },
            .returned win, .returned win⟩ := by
  have hstart : (⟨w, .start, .start⟩ : Race)
      = ⟨race_world w o 0 [] (d1 :: d2 :: rest), .start, .start⟩ := by
    rw [← hfresh, race_world_start]
  have hpre := pre_inv_run h w o d1 d2 rest k1 k2 hfree hM h1 h2 pre _ PreInv.ss
  rw [← hstart] at hpre
  have hmid := race_inv_of_pre _ _ _ _ _ _ _ _ _ hpre hrace1 hrace2
  have hfin := race_inv_run h w o _ d1 d2 rest k1 k2 hfree hM h1 h2 post _ hmid
  have hrem := race_run_remaining h o k1 k2 (race_run h o k1 k2 ⟨w, .start, .start⟩ pre) post
  have hr1 := in_flight_remaining _ hrace1
  have hr2 := in_flight_remaining _ hrace2
  have happ : race_run h o k1 k2 ⟨w, .start, .start⟩ (pre ++ post)
      = race_run h o k1 k2 (race_run h o k1 k2 ⟨w, .start, .start⟩ pre) post := by
    simp [race_run, List.foldl_append]
  rw [happ]
  generalize race_run h o k1 k2 (race_run h o k1 k2 ⟨w, .start, .start⟩ pre) post = fin
    at hfin hrem
  have hz1 : fin.pc1.remaining = 0 := by omega
  have hz2 : fin.pc2.remaining = 0 := by omega
  cases hfin <;> simp only [gcsd_pc.remaining] at hz1 hz2 <;> try omega
  · exact ⟨d1, d2, k1, k2, Or.inl ⟨rfl, rfl⟩, h12, Or.inl ⟨rfl, rfl⟩,
      by rw [race_world_final _ _ _ _ _ h1]⟩
  · exact ⟨d2, d1, k1, k2, Or.inr ⟨rfl, rfl⟩, Ne.symm h12, Or.inl ⟨rfl, rfl⟩,
      by rw [race_world_final _ _ _ _ _ h2]⟩
  · exact ⟨d2, d1, k2, k1, Or.inr ⟨rfl, rfl⟩, Ne.symm h12, Or.inr ⟨rfl, rfl⟩,
      by rw [race_world_final _ _ _ _ _ h2]⟩
  · exact ⟨d1, d2, k2, k1, Or.inl ⟨rfl, rfl⟩, h12, Or.inr ⟨rfl, rfl⟩,
      by rw [race_world_final _ _ _ _ _ h1]⟩

/-- C9 on pointer 5 of display 7 (manager 11, devices 31 and 32 to come): both threads
pass the first check, thread 2 creates first, thread 1 inserts first. -/
theorem single_winner_race_witness :
    ∃ win lose ka kb,
      ((win = 31 ∧ lose = 32) ∨ (win = 32 ∧ lose = 31)) ∧ win ≠ lose ∧
      ((ka = false ∧ kb = false) ∨ (ka = false ∧ kb = false)) ∧
      race_run demo_heap 5 false false ⟨demo_world, .start, .start⟩
          ([false, true, true] ++ [false, false, true, true, false, true])
        = ⟨{ demo_world with
              object_cursor_shape_device_map :=
                (g_hash_table_insert demo_world.object_cursor_shape_device_map 5 win),
              wire := demo_world.wire ++
                [creation_event ka
                    (g_hash_table_lookup demo_world.display_cursor_shape_manager_map
                      (demo_heap 5).display) 5,
                  creation_event kb
                    (g_hash_table_lookup demo_world.display_cursor_shape_manager_map
                      (demo_heap 5).display) 5,
                  WireEvent.destroy lose],
              fresh := [] },
            .returned win, .returned win⟩ :=
  single_winner_race demo_heap demo_world 5 false false 31 32 [] [false, true, true]
    [false, false, true, true, false, true] (by decide) (by decide) (by decide) (by decide)
    (by decide) (by decide) (by decide) (by decide) (by decide) (by decide)

/-! ## The toolkit fallback -/

theorem gtk_cursor_theme_buffer_name_eq_none (theme : gtk_wl_cursor_theme) (buffer : Nat) :
    gtk_cursor_theme_buffer_name theme buffer = none ↔
      ∀ cursor ∈ theme.cursors, ∀ image ∈ cursor.images, image.buffer ≠ buffer := by
  simp [gtk_cursor_theme_buffer_name, List.find?_eq_none]

/-- With no owning cursor the name is `NULL` and the registry lookup dereferences it. -/
theorem gtk_cursor_theme_buffer_shape_unowned (w : World) (theme : gtk_wl_cursor_theme)
    (buffer : Nat) (hnone : gtk_cursor_theme_buffer_name theme buffer = none) :
    gtk_cursor_theme_buffer_shape w theme buffer = none := by
  simp [gtk_cursor_theme_buffer_shape, hnone]

/-- With an owning cursor the function returns the registry value of its name (0 on a
miss) and inserts that value for the buffer. -/
theorem gtk_cursor_theme_buffer_shape_owned (w : World) (theme : gtk_wl_cursor_theme)
    (buffer : Nat) (name : String)
    (hname : gtk_cursor_theme_buffer_name theme buffer = some name) :
    gtk_cursor_theme_buffer_shape w theme buffer
      = some (g_hash_table_lookup cursor_shape_map name,
          { w with buffer_shape_map :=
              (g_hash_table_insert w.buffer_shape_map buffer
                (g_hash_table_lookup cursor_shape_map name)) }) := by
  unfold gtk_cursor_theme_buffer_shape
  rw [hname]
  cases hl : g_hash_table_lookup_extended cursor_shape_map name with
  | none => simp [g_hash_table_lookup, hl]
  | some value => simp [g_hash_table_lookup, hl]

/-- C11 (the code at the failing input): in `demo_theme` no cursor owns buffer 200, so
`gtk_cursor_theme_buffer_name` returns `NULL` and `gtk_cursor_theme_buffer_shape` passes
that `NULL` to the registry lookup, where it is dereferenced: the call fails instead of
returning 0; the same happens on an empty theme. The owned cases behave as claimed:
buffer 100 resolves through the first owner "pointer" (4, not 9 of "text"), and buffer 102 of
the unknown name "my-custom" gives 0. -/
theorem toolkit_fallback_fails_on_unowned_buffer :
    gtk_cursor_theme_buffer_name demo_theme 200 = none ∧
    gtk_cursor_theme_buffer_shape (init demo_theme []) demo_theme 200 = none ∧
    gtk_cursor_theme_buffer_shape (init ⟨[]⟩ []) ⟨[]⟩ 100 = none ∧
    (gtk_cursor_theme_buffer_shape (init demo_theme []) demo_theme 100).map Prod.fst
      = some 4 ∧
    (gtk_cursor_theme_buffer_shape (init demo_theme []) demo_theme 102).map Prod.fst
      = some 0 := by
  decide

/-- C12: whenever some cursor of the theme owns buffer `b` (so that
`gtk_cursor_theme_buffer_shape(theme, b)` returns), the call returns the registry value `s`
of the owner's name, 0 when the name has no mapping, and the only change of the state is
that the buffer to shape cache now maps `b` to `s`: a cache lookup of `b` yields `s`, every
other buffer's entry is as before, and `lookup_buffer_shape b` yields `s` again when the
theme is the one of the captured display. -/
theorem toolkit_fallback_caches_result (w : World) (theme : gtk_wl_cursor_theme) (b : Nat)
    (name : String) (hown : gtk_cursor_theme_buffer_name theme b = some name) :
    ∃ s w1,
      gtk_cursor_theme_buffer_shape w theme b = some (s, w1) ∧
      s = g_hash_table_lookup cursor_shape_map name ∧
      (g_hash_table_lookup_extended cursor_shape_map name = none → s = 0) ∧
      w1 = { w with buffer_shape_map := (g_hash_table_insert w.buffer_shape_map b s) } ∧
      g_hash_table_lookup w1.buffer_shape_map b = s ∧
      (∀ b2, b2 ≠ b →
        g_hash_table_lookup w1.buffer_shape_map b2
          = g_hash_table_lookup w.buffer_shape_map b2) ∧
      (theme = w.gtk_theme → (lookup_buffer_shape w1 b).map Prod.fst = some s) := by
  have hret := gtk_cursor_theme_buffer_shape_owned w theme b name hown
  refine ⟨_, _, hret, rfl, ?_, rfl, ?_, ?_, ?_⟩
  · intro hmiss
    simp [g_hash_table_lookup, hmiss]
  · simp [lookup_insert_self]
  · intro b2 hb2
    simp [lookup_insert_other _ _ _ _ (Ne.symm hb2)]
  · intro htheme
    subst htheme
    by_cases hz : g_hash_table_lookup cursor_shape_map name = 0 ∧ w.gdk_wayland_display ≠ 0
    · have hagain := gtk_cursor_theme_buffer_shape_owned
        { w with buffer_shape_map :=
            (g_hash_table_insert w.buffer_shape_map b
              (g_hash_table_lookup cursor_shape_map name)) } w.gtk_theme b name hown
      simp only [lookup_buffer_shape, lookup_insert_self, hz, ne_eq, not_false_eq_true,
        and_self, if_true, gdk_wayland_display_cursor_buffer_shape]
      rw [hz.1] at hagain
      rw [hagain]
      simp [hz.1]
    · simp only [lookup_buffer_shape, lookup_insert_self]
      rw [if_neg hz]
      rfl

/-- C12 on buffer 102 of `demo_theme`, owned by the unmapped name "my-custom": the call
returns 0 and the cache holds 0 for buffer 102. -/
theorem toolkit_fallback_caches_result_witness :
    ∃ s w1,
      gtk_cursor_theme_buffer_shape (init demo_theme []) demo_theme 102 = some (s, w1) ∧
      s = g_hash_table_lookup cursor_shape_map "my-custom" ∧
      (g_hash_table_lookup_extended cursor_shape_map "my-custom" = none → s = 0) ∧
      w1 = { init demo_theme [] with
              buffer_shape_map :=
                (g_hash_table_insert (init demo_theme []).buffer_shape_map 102 s) } ∧
      g_hash_table_lookup w1.buffer_shape_map 102 = s ∧
      (∀ b2, b2 ≠ 102 →
        g_hash_table_lookup w1.buffer_shape_map b2
          = g_hash_table_lookup (init demo_theme []).buffer_shape_map b2) ∧
      (demo_theme = (init demo_theme []).gtk_theme →
        (lookup_buffer_shape w1 102).map Prod.fst = some s) :=
  toolkit_fallback_caches_result (init demo_theme []) demo_theme 102 "my-custom" (by decide)

/-! ## The shape name registry -/

/-- Every canonical name but "ns-resize" is registered with its own shape. -/
theorem registry_canonical_except_ns_resize (s : Shape) (hs : s ≠ .NS_RESIZE) :
    g_hash_table_lookup_extended cursor_shape_map s.canonical_name = some s.val := by
  cases s <;> first | decide | exact absurd rfl hs

/-- The alias "left_ptr" is registered with the shape of "default". -/
theorem registry_left_ptr_is_default :
    g_hash_table_lookup_extended cursor_shape_map "left_ptr"
      = g_hash_table_lookup_extended cursor_shape_map "default" := by
  decide

/-- No entry of the table carries the sentinel 0. -/
theorem cursor_shape_list_ne_zero : ∀ e ∈ cursor_shape_list, e.2 ≠ 0 := by
  simp [cursor_shape_list, Shape.val]

/-- C13 (the code at the failing input): the entry of `cursor_shape_list` for the canonical
name "ns-resize" of `WP_CURSOR_SHAPE_DEVICE_V1_SHAPE_NS_RESIZE` (27) carries
`WP_CURSOR_SHAPE_DEVICE_V1_SHAPE_EW_RESIZE` (26), the shape of the entry above it, so the
registry resolves "ns-resize" and "ew-resize" to the same identifier. -/
theorem registry_ns_resize_maps_to_ew_resize :
    Shape.NS_RESIZE.canonical_name = "ns-resize" ∧
    ("ns-resize", Shape.EW_RESIZE.val) ∈ cursor_shape_list ∧
    ("ns-resize", Shape.NS_RESIZE.val) ∉ cursor_shape_list ∧
    g_hash_table_lookup_extended cursor_shape_map "ns-resize" = some Shape.EW_RESIZE.val ∧
    g_hash_table_lookup_extended cursor_shape_map "ew-resize" = some Shape.EW_RESIZE.val ∧
    Shape.EW_RESIZE.val = 26 ∧ Shape.NS_RESIZE.val = 27 := by
  decide

end Wlcursorfix
